import Mathlib

/-!
Verification of the Talisay fruit image pipeline (TalisayGuard and
DimensionEstimator) against its specification.

Shallow embedding conventions:
* Python floats are modelled as exact rationals (`ℚ`); `np.pi` is the
  double-precision constant used by the code, embedded as `npPi`.
* Presentation-only rounding in the source (`round(x, 3)` / `round(x, 2)`
  applied to values stored in result dictionaries) is not modelled: every
  comparison and decision in the source happens before such rounding.
* Pixel data is modelled as lists of per-pixel channel values
  (`GuardPixel`: HSV plus YCrCb plus fruit-mask membership).  Colour-band
  membership tests (`cv2.inRange`, inclusive on both bounds) become
  decidable predicates over those channels.
* OpenCV geometric measurements that the code consumes but does not
  compute arithmetically itself (contour area / perimeter from
  `cv2.findContours`, ellipse-fit aspect ratio from `cv2.fitEllipse`,
  convex-hull area, Canny edge statistics, Haar-cascade face counts,
  Laplacian variance, and Hough-circle candidate statistics) are inputs of
  the embedded functions; everything the Python code computes *from* those
  measurements (scores, thresholds, verdicts, calibration arithmetic) is
  embedded from the source.
* `x / 0 = 0` in `ℚ`; each source site dividing by a quantity guards it or
  it is positive on all paths that matter, and the guards are carried over.
-/

/-- The value of `np.pi` (IEEE-754 double), as an exact rational. -/
def npPi : ℚ := 884279719003555 / 281474976710656

/-- `np.clip(x, lo, hi)` for rationals (`lo ≤ hi` at every use site). -/
def clip (x lo hi : ℚ) : ℚ := min (max x lo) hi

/-- One image pixel as seen by `TalisayGuard`: HSV channels (OpenCV ranges,
hue 0–180, saturation/value 0–255), YCrCb channels, and whether the pixel
belongs to the fruit mask used by the positive layers. -/
structure GuardPixel where
  hh : ℕ
  ss : ℕ
  vv : ℕ
  ycy : ℕ
  ycr : ℕ
  ycb : ℕ
  inMask : Bool
deriving DecidableEq

/-- `TALISAY_GREEN_HSV` band membership (`cv2.inRange`, inclusive bounds):
lower `[30, 35, 35]`, upper `[80, 255, 245]`. -/
def talisayGreen (p : GuardPixel) : Bool :=
  decide (30 ≤ p.hh ∧ p.hh ≤ 80 ∧ 35 ≤ p.ss ∧ p.ss ≤ 255 ∧ 35 ≤ p.vv ∧ p.vv ≤ 245)

/-- `TALISAY_YELLOW_HSV` band: lower `[18, 60, 70]`, upper `[38, 255, 255]`. -/
def talisayYellow (p : GuardPixel) : Bool :=
  decide (18 ≤ p.hh ∧ p.hh ≤ 38 ∧ 60 ≤ p.ss ∧ p.ss ≤ 255 ∧ 70 ≤ p.vv ∧ p.vv ≤ 255)

/-- `TALISAY_BROWN_HSV` band: lower `[5, 30, 20]`, upper `[26, 220, 200]`. -/
def talisayBrown (p : GuardPixel) : Bool :=
  decide (5 ≤ p.hh ∧ p.hh ≤ 26 ∧ 30 ≤ p.ss ∧ p.ss ≤ 220 ∧ 20 ≤ p.vv ∧ p.vv ≤ 200)

/-- `SKIN_HSV` band: lower `[0, 20, 70]`, upper `[25, 170, 255]`. -/
def skinHSV (p : GuardPixel) : Bool :=
  decide (p.hh ≤ 25 ∧ 20 ≤ p.ss ∧ p.ss ≤ 170 ∧ 70 ≤ p.vv ∧ p.vv ≤ 255)

/-- YCrCb skin band used in `_check_person`: lower `[80, 133, 77]`,
upper `[255, 173, 127]`. -/
def skinYCrCb (p : GuardPixel) : Bool :=
  decide (80 ≤ p.ycy ∧ p.ycy ≤ 255 ∧ 133 ≤ p.ycr ∧ p.ycr ≤ 173 ∧ 77 ≤ p.ycb ∧ p.ycb ≤ 127)

/-- `combined_skin = cv2.bitwise_and(skin_hsv_mask, skin_ycrcb_mask)`. -/
def combinedSkin (p : GuardPixel) : Bool := skinHSV p && skinYCrCb p

/-- `strong_rescue = talisay_green | talisay_yellow` in `_check_person`. -/
def strongRescue (p : GuardPixel) : Bool := talisayGreen p || talisayYellow p

/-- `talisay_brown_nonskin = talisay_brown_raw & ~combined_skin`. -/
def brownNonskin (p : GuardPixel) : Bool := talisayBrown p && !combinedSkin p

/-- `total_rescue = strong_rescue | talisay_brown_nonskin`. -/
def totalRescue (p : GuardPixel) : Bool := strongRescue p || brownNonskin p

/-- Union of the three strict Talisay bands (`talisay_any` in
`_check_talisay_colour`). -/
def talisayAny (p : GuardPixel) : Bool := talisayGreen p || talisayYellow p || talisayBrown p

/-- Coverage of a pixel predicate: `np.sum(mask > 0) / total`. -/
def cov (f : GuardPixel → Bool) (ps : List GuardPixel) : ℚ :=
  ((ps.countP f : ℕ) : ℚ) / ((ps.length : ℕ) : ℚ)

/-- Constants from `talisay_guard.py` (`MIN_GUARD_SCORE` block). -/
def MIN_GUARD_SCORE : ℚ := 0.55

/-- `MIN_POSITIVE_LAYERS = 3`. -/
def MIN_POSITIVE_LAYERS : ℕ := 3

/-- `MIN_TALISAY_COLOUR_COV = 0.30`. -/
def MIN_TALISAY_COLOUR_COV : ℚ := 0.30

/-- `MAX_SKIN_COVERAGE = 0.25`. -/
def MAX_SKIN_COVERAGE : ℚ := 0.25

/-- Result of `TalisayGuard._check_person`.  The source returns a dict; the
fields below are the entries that the rest of `verify` reads
(`is_person`, `skin_coverage`, `talisay_coverage`,
`strong_rescue_coverage`).  On the one path where the source omits
`skin_coverage` (face-detected rejection) the value is never read, so the
embedding always stores the computed coverage. -/
structure PersonResult where
  isPerson : Bool
  skinCoverage : ℚ
  talisayCoverage : ℚ
  strongRescueCoverage : ℚ
deriving DecidableEq

/-- `TalisayGuard._check_person` (talisay_guard.py lines 394–492).
`facesFound` is the number of Haar-cascade face detections (external
geometry).  All coverage arithmetic and the decision chain are translated
from the source. -/
def checkPerson (facesFound : ℕ) (ps : List GuardPixel) : PersonResult :=
  if 0 < facesFound ∧ cov strongRescue ps < 0.05 then
    ⟨true, cov combinedSkin ps, cov totalRescue ps, cov strongRescue ps⟩
  else if MAX_SKIN_COVERAGE < cov combinedSkin ps then
    if 0.08 ≤ cov strongRescue ps then
      ⟨false, cov combinedSkin ps, cov totalRescue ps, cov strongRescue ps⟩
    else if 0.20 ≤ cov totalRescue ps ∧ cov combinedSkin ps < 0.45 then
      ⟨false, cov combinedSkin ps, cov totalRescue ps, cov strongRescue ps⟩
    else ⟨true, cov combinedSkin ps, cov totalRescue ps, cov strongRescue ps⟩
  else ⟨false, cov combinedSkin ps, cov totalRescue ps, cov strongRescue ps⟩

/-- Result of `TalisayGuard._check_talisay_colour` (the fields read by
`verify` and by the spec claims). -/
structure ColourResult where
  passes : Bool
  score : ℚ
  coverage : ℚ
  dominantCoverage : ℚ
deriving DecidableEq

/-- The dominant-band coverage `coverages[dominant]` of
`_check_talisay_colour`: the maximum of the green/yellow/brown coverages. -/
def dominantCov (ps : List GuardPixel) : ℚ :=
  max (max (cov talisayGreen ps) (cov talisayYellow ps)) (cov talisayBrown ps)

/-- `TalisayGuard._check_talisay_colour` (lines 720–787), applied to the
masked pixels `hsv[mask > 0]`.  Fewer than 200 pixels short-circuits;
otherwise the score is linear in union coverage up to 1.0 at 60 %, the
layer passes when total coverage is at least `MIN_TALISAY_COLOUR_COV`, and
a dominant band below 15 % forces a failure and halves the score. -/
def checkColour (ps : List GuardPixel) : ColourResult :=
  if ps.length < 200 then ⟨false, 0, 0, 0⟩
  else if dominantCov ps < 0.15 then
    ⟨false, min 1 (cov talisayAny ps / 0.60) * 0.5, cov talisayAny ps, dominantCov ps⟩
  else
    ⟨decide (MIN_TALISAY_COLOUR_COV ≤ cov talisayAny ps),
      min 1 (cov talisayAny ps / 0.60), cov talisayAny ps, dominantCov ps⟩

/-- The contour measurements consumed by `_check_talisay_shape`:
`cv2.contourArea` of the largest contour, `cv2.arcLength`, the ellipse-fit
(or bounding-box fallback) aspect value, and the convex-hull area.
`hasContour = false` models `cv2.findContours` returning nothing. -/
structure ShapeMeasure where
  hasContour : Bool
  area : ℚ
  perim : ℚ
  aspect : ℚ
  hullArea : ℚ
deriving DecidableEq

/-- Result of `_check_talisay_shape`.  `hasGeometry = false` records that
the result dict carries no `aspect_ratio`/`circularity` keys, in which case
`verify` reads them through `.get(..., 1.0)`; the embedding stores that
default directly. -/
structure ShapeResult where
  passes : Bool
  score : ℚ
  hasGeometry : Bool
  aspect : ℚ
  circularity : ℚ
  solidity : ℚ
deriving DecidableEq

/-- The aspect-ratio contribution of `_check_talisay_shape`: peak score at
the middle of `self._talisay_aspect_range = (1.25, 2.40)`, weight 0.40,
partial credit 0.15 on `[1.1, 2.6]`. -/
def aspectScorePart (a : ℚ) : ℚ :=
  if 1.25 ≤ a ∧ a ≤ 2.40 then
    (1 - |a - (1.25 + 2.40) / 2| / ((2.40 - 1.25) / 2)) * 0.40
  else if 1.1 ≤ a ∧ a ≤ 2.6 then 0.15
  else 0

/-- The circularity contribution: 0.30 on
`self._talisay_circularity_range = (0.35, 0.80)`, 0.12 on `[0.25, 0.85]`. -/
def circScorePart (c : ℚ) : ℚ :=
  if 0.35 ≤ c ∧ c ≤ 0.80 then 0.30
  else if 0.25 ≤ c ∧ c ≤ 0.85 then 0.12
  else 0

/-- The solidity contribution: 0.30 at or above 0.80, 0.12 at or above
0.72. -/
def solidityScorePart (s : ℚ) : ℚ :=
  if 0.80 ≤ s then 0.30
  else if 0.72 ≤ s then 0.12
  else 0

/-- `circularity = 4 * np.pi * area / (perimeter ** 2)`. -/
def shapeCircularity (m : ShapeMeasure) : ℚ := 4 * npPi * m.area / (m.perim * m.perim)

/-- `solidity = area / hull_area if hull_area > 0 else 0`. -/
def shapeSolidity (m : ShapeMeasure) : ℚ :=
  if 0 < m.hullArea then m.area / m.hullArea else 0

/-- The total shape score. -/
def shapeScore (m : ShapeMeasure) : ℚ :=
  aspectScorePart m.aspect + circScorePart (shapeCircularity m) +
    solidityScorePart (shapeSolidity m)

/-- `TalisayGuard._check_talisay_shape` (lines 793–873): degenerate
contours (none found, area below 300, zero perimeter) fail with score 0
and no geometry; otherwise the layer passes when the score is at least
0.50 with aspect in `[1.1, 3.0]` and circularity at most 0.90. -/
def checkShape (m : ShapeMeasure) : ShapeResult :=
  if m.hasContour = false ∨ m.area < 300 ∨ m.perim = 0 then ⟨false, 0, false, 1, 1, 0⟩
  else
    ⟨decide (0.50 ≤ shapeScore m ∧ 1.1 ≤ m.aspect ∧ m.aspect ≤ 3.0 ∧
        shapeCircularity m ≤ 0.90),
      shapeScore m, true, m.aspect, shapeCircularity m, shapeSolidity m⟩

/-- The grey/HSV statistics consumed by `_check_talisay_texture`:
number of masked pixels, their grey standard deviation, the
low-saturation/high-value (metallic shine) fraction, the hue standard
deviation, and the Laplacian variance over the mask. -/
structure TextureStats where
  pixelCount : ℕ
  stdVal : ℚ
  metallicFrac : ℚ
  hueStd : ℚ
  lapVar : ℚ
deriving DecidableEq

/-- Result of `_check_talisay_texture`. -/
structure TextureResult where
  passes : Bool
  score : ℚ
deriving DecidableEq

/-- The grey-deviation contribution of `_check_talisay_texture`. -/
def textureStdScore (x : ℚ) : ℚ :=
  if 15 < x ∧ x < 70 then 0.35 else if 10 < x ∧ x < 80 then 0.15 else 0

/-- The metallic-shine contribution. -/
def textureMetallicScore (x : ℚ) : ℚ :=
  if x < 0.15 then 0.25 else if x < 0.25 then 0.10 else 0

/-- The hue-deviation contribution. -/
def textureHueScore (x : ℚ) : ℚ :=
  if x < 20 then 0.25 else if x < 30 then 0.12 else 0

/-- The Laplacian-variance contribution. -/
def textureLapScore (x : ℚ) : ℚ :=
  if 50 < x ∧ x < 3000 then 0.15 else if 20 < x ∧ x < 5000 then 0.05 else 0

/-- The total texture score. -/
def textureScore (t : TextureStats) : ℚ :=
  textureStdScore t.stdVal + textureMetallicScore t.metallicFrac +
    textureHueScore t.hueStd + textureLapScore t.lapVar

/-- `TalisayGuard._check_talisay_texture` (lines 879–957): moderate grey
variance (0.35), low metallic-shine fraction (0.25), low hue variance
(0.25), moderate Laplacian variance (0.15), each with a partial-credit
band; passes at a total of at least 0.50. -/
def checkTexture (t : TextureStats) : TextureResult :=
  if t.pixelCount < 200 then ⟨false, 0⟩
  else ⟨decide (0.50 ≤ textureScore t), textureScore t⟩

/-- Insert into an ascending-sorted list (helper for `npMedian`). -/
def insertAsc (a : ℕ) : List ℕ → List ℕ
  | [] => [a]
  | b :: bs => if a ≤ b then a :: b :: bs else b :: insertAsc a bs

/-- Ascending insertion sort on naturals (helper for `npMedian`). -/
def sortAsc : List ℕ → List ℕ
  | [] => []
  | a :: rest => insertAsc a (sortAsc rest)

/-- `np.median` of a list of channel values: the middle element of the
sorted list, or the mean of the two middle elements for even length. -/
def npMedian (l : List ℕ) : ℚ :=
  let s := sortAsc l
  let n := s.length
  if n = 0 then 0
  else if n % 2 = 1 then ((s.getD (n / 2) 0 : ℕ) : ℚ)
  else (((s.getD (n / 2 - 1) 0 : ℕ) : ℚ) + ((s.getD (n / 2) 0 : ℕ) : ℚ)) / 2

/-- The `GuardVerdict` enumeration of `talisay_guard.py` (lines 32–43). -/
inductive GuardVerdict
  | accept
  | rejectBlank
  | rejectPerson
  | rejectCapsicum
  | rejectNonTalisayFruit
  | rejectWrongShape
  | rejectWrongColour
  | rejectWrongTexture
  | rejectLowConfidence
  | rejectGeneric
deriving DecidableEq, Fintype

/-- The verdict dictionary built by `TalisayGuard._make_verdict`: the
`accepted` flag, the `verdict` kind, and the composite `score`
(presentation rounding to three decimals omitted). -/
structure Verdict where
  accepted : Bool
  verdict : GuardVerdict
  score : ℚ
deriving DecidableEq

/-- Everything `TalisayGuard.verify` consumes: image dimensions, the
per-pixel data (whole image, row-major; the fruit mask is carried as the
`inMask` flag of each pixel), the Haar-cascade face count, the abstracted
boolean outcomes of the blank/capsicum/non-Talisay layers (their internal
cv2 statistics are not read again by the composite decision), and the
geometric/texture measurements feeding layers 6 and 7. -/
structure VerifyInput where
  imgH : ℕ
  imgW : ℕ
  pixels : List GuardPixel
  facesFound : ℕ
  isBlank : Bool
  isCapsicum : Bool
  isNonTalisay : Bool
  shapeM : ShapeMeasure
  textureS : TextureStats
deriving DecidableEq

/-- The person-layer result computed inside `verify`. -/
def personRes (inp : VerifyInput) : PersonResult := checkPerson inp.facesFound inp.pixels

/-- `fruit_area = np.sum(fruit_mask > 0)` inside `verify`. -/
def fruitArea (inp : VerifyInput) : ℕ := inp.pixels.countP (·.inMask)

/-- The masked pixels `hsv[mask > 0]` fed to the colour layer. -/
def maskedPixels (inp : VerifyInput) : List GuardPixel := inp.pixels.filter (·.inMask)

/-- The colour-layer result computed inside `verify`. -/
def colourRes (inp : VerifyInput) : ColourResult := checkColour (maskedPixels inp)

/-- The shape-layer result computed inside `verify`. -/
def shapeRes (inp : VerifyInput) : ShapeResult := checkShape inp.shapeM

/-- The texture-layer result computed inside `verify`. -/
def textureRes (inp : VerifyInput) : TextureResult := checkTexture inp.textureS

/-- `positive_count = sum(positive_checks)` over the colour/shape/texture
`passes` flags. -/
def positiveCount (inp : VerifyInput) : ℕ :=
  (colourRes inp).passes.toNat + (shapeRes inp).passes.toNat + (textureRes inp).passes.toNat

/-- The weighted composite
`colour·0.45 + shape·0.30 + texture·0.25` of `verify`. -/
def composite (inp : VerifyInput) : ℚ :=
  (colourRes inp).score * 0.45 + (shapeRes inp).score * 0.30 + (textureRes inp).score * 0.25

/-- `mask_coverage = fruit_area / (h_img * w_img)` of `verify`. -/
def maskCoverage (inp : VerifyInput) : ℚ :=
  ((fruitArea inp : ℕ) : ℚ) / ((inp.imgH * inp.imgW : ℕ) : ℚ)

/-- The shape quality gate of `verify` (lines 247–256): mask coverage
below 12 %, circularity above 0.90, aspect below 1.08, where
circularity/aspect are read from the shape result with default 1.0. -/
def shapeGate (inp : VerifyInput) : Bool :=
  decide (maskCoverage inp < 0.12 ∧ 0.90 < (shapeRes inp).circularity ∧
    (shapeRes inp).aspect < 1.08)

/-- The saturations of all whole-image pixels matching the strict green
band (`green_sat_vals` in the skin-sensitivity block of `verify`). -/
def greenSats (inp : VerifyInput) : List ℕ :=
  (inp.pixels.filter talisayGreen).map (·.ss)

/-- `was_rescued`: the person layer saw skin above `MAX_SKIN_COVERAGE` but
did not reject. -/
def wasRescued (inp : VerifyInput) : Prop :=
  (personRes inp).isPerson = false ∧ MAX_SKIN_COVERAGE < (personRes inp).skinCoverage

instance (inp : VerifyInput) : Decidable (wasRescued inp) := by
  unfold wasRescued; infer_instance

/-- The vegetation arm of the skin-sensitivity veto: strong rescue
coverage above 10 %, more than 100 green pixels, and green median
saturation above 140. -/
def vegetationVeto (inp : VerifyInput) : Prop :=
  0.10 < (personRes inp).strongRescueCoverage ∧ 100 < (greenSats inp).length ∧
    140 < npMedian (greenSats inp)

instance (inp : VerifyInput) : Decidable (vegetationVeto inp) := by
  unfold vegetationVeto; infer_instance

/-- The full skin-sensitivity veto of `verify` (lines 290–318), as a
predicate: rescue happened, fewer than three positive layers, and either
skin above 45 % or the vegetation condition. -/
def skinVeto (inp : VerifyInput) : Prop :=
  wasRescued inp ∧ positiveCount inp < MIN_POSITIVE_LAYERS ∧
    (0.45 < (personRes inp).skinCoverage ∨ vegetationVeto inp)

instance (inp : VerifyInput) : Decidable (skinVeto inp) := by
  unfold skinVeto; infer_instance

/-- The base acceptance test of `verify`:
`positive_count >= 3 or (positive_count >= 2 and composite >= 0.55)`. -/
def acceptedBase (inp : VerifyInput) : Bool :=
  decide (MIN_POSITIVE_LAYERS ≤ positiveCount inp) ||
    (decide (2 ≤ positiveCount inp) && decide (MIN_GUARD_SCORE ≤ composite inp))

/-- `if composite < 0.35: accepted = False` applied after the base test. -/
def acceptedAfterFloor (inp : VerifyInput) : Bool :=
  if composite inp < 0.35 then false else acceptedBase inp

/-- The final `accepted` flag of `verify`, after the skin-sensitivity
block, translated statement-by-statement (if skin above 0.45 then reject;
elif strong rescue above 0.10 then reject when more than 100 green pixels
have median saturation above 140). -/
def acceptedFinal (inp : VerifyInput) : Bool :=
  if (personRes inp).isPerson = false ∧ MAX_SKIN_COVERAGE < (personRes inp).skinCoverage ∧
      positiveCount inp < MIN_POSITIVE_LAYERS then
    if 0.45 < (personRes inp).skinCoverage then false
    else if 0.10 < (personRes inp).strongRescueCoverage then
      if 100 < (greenSats inp).length then
        if 140 < npMedian (greenSats inp) then false else acceptedAfterFloor inp
      else acceptedAfterFloor inp
    else acceptedAfterFloor inp
  else acceptedAfterFloor inp

/-- `TalisayGuard.verify` (lines 132–347): the ordered early-exit cascade
(blank, person, tiny mask, capsicum, non-Talisay colours, shape quality
gate) followed by the composite decision and the most-informative
rejection reason. -/
def verify (inp : VerifyInput) : Verdict :=
  if inp.isBlank then ⟨false, .rejectBlank, 0⟩
  else if (personRes inp).isPerson then ⟨false, .rejectPerson, 0⟩
  else if fruitArea inp < 500 then ⟨false, .rejectGeneric, 0⟩
  else if inp.isCapsicum then ⟨false, .rejectCapsicum, 0⟩
  else if inp.isNonTalisay then ⟨false, .rejectNonTalisayFruit, 0⟩
  else if shapeGate inp then ⟨false, .rejectWrongShape, 0⟩
  else if acceptedFinal inp then ⟨true, .accept, composite inp⟩
  else if (colourRes inp).passes = false then ⟨false, .rejectWrongColour, composite inp⟩
  else if (shapeRes inp).passes = false then ⟨false, .rejectWrongShape, composite inp⟩
  else ⟨false, .rejectLowConfidence, composite inp⟩

/-- One Hough-circle candidate of `_detect_coin_single_pass`
(dimension_estimator.py lines 282–530), together with the image statistics
the scoring loop extracts for it: interior HSV/grey means and deviation,
interior pixel count, rim-continuity sector hits (of 36), annular-band
edge density, exterior-ring pixel count and grey mean, and the interior
grey mean used for contrast. -/
structure CoinCand where
  x : ℕ
  y : ℕ
  r : ℕ
  meanHue : ℚ
  meanSat : ℚ
  meanVal : ℚ
  stdGray : ℚ
  innerCount : ℕ
  sectorHits : ℕ
  rimFrac : ℚ
  outerCount : ℕ
  outerMean : ℚ
  innerMean : ℚ
deriving DecidableEq

/-- The border-margin rejection of the scoring loop:
`margin = max(5, r // 10)` and the circle is skipped when it comes within
`margin` of any image border (natural subtraction matches the Python
comparison because a negative left-hand side also satisfies it). -/
def inBorderMargin (w h : ℕ) (c : CoinCand) : Bool :=
  decide (c.x - c.r < max 5 (c.r / 10)) ||
    decide (w - max 5 (c.r / 10) ≤ c.x + c.r) ||
    decide (c.y - c.r < max 5 (c.r / 10)) ||
    decide (h - max 5 (c.r / 10) ≤ c.y + c.r)

/-- A circle literally touching (or crossing) an image border. -/
def touchesBorder (w h : ℕ) (c : CoinCand) : Bool :=
  decide (c.x ≤ c.r) || decide (w ≤ c.x + c.r) ||
    decide (c.y ≤ c.r) || decide (h ≤ c.y + c.r)

/-- `pos_x = x / w`. -/
def posFrac (w : ℕ) (c : CoinCand) : ℚ := ((c.x : ℕ) : ℚ) / ((w : ℕ) : ℚ)

/-- `size_ratio = (2 * r) / w`. -/
def sizeFrac (w : ℕ) (c : CoinCand) : ℚ := ((2 * c.r : ℕ) : ℚ) / ((w : ℕ) : ℚ)

/-- All `continue`-rejections of the scoring loop that happen before any
score is computed: border margin, horizontal position beyond 0.55,
diameter ratio outside (0.04, 0.25), fewer than 200 interior pixels, and
the three hard interior rejections (green-fruit interior, excessive grey
deviation, washed-out or near-black mean value). -/
def passPre (w h : ℕ) (c : CoinCand) : Bool :=
  !inBorderMargin w h c &&
    decide (posFrac w c ≤ 0.55) &&
    decide (0.04 < sizeFrac w c ∧ sizeFrac w c < 0.25) &&
    decide (200 ≤ c.innerCount) &&
    !(decide (35 < c.meanHue ∧ c.meanHue < 85 ∧ 35 < c.meanSat)) &&
    decide (c.stdGray ≤ 55) &&
    !(decide (240 < c.meanVal ∨ c.meanVal < 15))

/-- `rim_continuity = sector_hits / N_SECTORS` with `N_SECTORS = 36`. -/
def rimContinuity (c : CoinCand) : ℚ := ((c.sectorHits : ℕ) : ℚ) / 36

/-- Rim-continuity score band (weight up to 0.30). -/
def rimScore (c : CoinCand) : ℚ :=
  if 0.85 < rimContinuity c then 0.30
  else if 0.75 < rimContinuity c then 0.26
  else if 0.65 < rimContinuity c then 0.21
  else if 0.50 < rimContinuity c then 0.15
  else if 0.35 < rimContinuity c then 0.08
  else 0.02

/-- Metallic indicator score band, `metallic_ratio = mean_val / (mean_sat + 1)`
(weight up to 0.18). -/
def metallicScore (c : CoinCand) : ℚ :=
  if 4.0 < c.meanVal / (c.meanSat + 1) then 0.18
  else if 3.0 < c.meanVal / (c.meanSat + 1) then 0.15
  else if 2.5 < c.meanVal / (c.meanSat + 1) then 0.12
  else if 2.0 < c.meanVal / (c.meanSat + 1) then 0.09
  else if 1.5 < c.meanVal / (c.meanSat + 1) then 0.06
  else if 1.0 < c.meanVal / (c.meanSat + 1) then
    (if c.meanHue < 30 ∧ c.stdGray < 35 then 0.05 else 0.03)
  else (if c.meanHue < 25 ∧ c.stdGray < 30 then 0.04 else 0.01)

/-- Rim edge density score band (weight up to 0.10). -/
def rimDensityScore (c : CoinCand) : ℚ :=
  if 0.15 < c.rimFrac then 0.10
  else if 0.10 < c.rimFrac then 0.08
  else if 0.06 < c.rimFrac then 0.06
  else if 0.03 < c.rimFrac then 0.04
  else if 0.01 < c.rimFrac then 0.02
  else 0

/-- Interior-exterior contrast score band, guarded by more than 50
exterior pixels (weight up to 0.15). -/
def contrastScore (c : CoinCand) : ℚ :=
  if 50 < c.outerCount then
    if 0.20 < |c.outerMean - c.innerMean| / max 1 ((c.outerMean + c.innerMean) / 2) then 0.15
    else if 0.10 < |c.outerMean - c.innerMean| / max 1 ((c.outerMean + c.innerMean) / 2) then 0.12
    else if 0.05 < |c.outerMean - c.innerMean| / max 1 ((c.outerMean + c.innerMean) / 2) then 0.08
    else if 0.02 < |c.outerMean - c.innerMean| / max 1 ((c.outerMean + c.innerMean) / 2) then 0.04
    else 0
  else 0

/-- Interior uniformity score band (weight up to 0.10). -/
def uniformityScore (c : CoinCand) : ℚ :=
  if c.stdGray < 22 then 0.10
  else if c.stdGray < 30 then 0.08
  else if c.stdGray < 38 then 0.06
  else if c.stdGray < 45 then 0.03
  else if c.stdGray < 52 then 0.01
  else 0

/-- Position score `max(0, (0.55 - pos_x) / 0.55) * 0.07`. -/
def positionScore (w : ℕ) (c : CoinCand) : ℚ :=
  max 0 ((0.55 - posFrac w c) / 0.55) * 0.07

/-- Size preference score band (weight up to 0.10). -/
def coinSizeScore (w : ℕ) (c : CoinCand) : ℚ :=
  if 0.06 < sizeFrac w c ∧ sizeFrac w c < 0.16 then 0.10
  else if 0.05 < sizeFrac w c ∧ sizeFrac w c < 0.20 then 0.07
  else 0.03

/-- The total score of a surviving candidate in
`_detect_coin_single_pass`. -/
def scoreCand (w : ℕ) (c : CoinCand) : ℚ :=
  rimScore c + metallicScore c + rimDensityScore c + contrastScore c +
    uniformityScore c + positionScore w c + coinSizeScore w c

/-- Insert into a list sorted descending by `key`, keeping the stable
order of Python `list.sort` for equal keys. -/
def insertByKey {A : Type} (key : A → ℚ) (c : A) : List A → List A
  | [] => [c]
  | d :: ds => if key d ≤ key c then c :: d :: ds else d :: insertByKey key c ds

/-- Stable descending insertion sort by `key`
(`scored_circles.sort(key=lambda c: -c[3])`). -/
def sortByKeyDesc {A : Type} (key : A → ℚ) : List A → List A
  | [] => []
  | c :: cs => insertByKey key c (sortByKeyDesc key cs)

/-- The larger-circle preference condition of the post-processing loop:
the candidate is more than 1.3 times larger, lies within 1.5 radii of the
current best (the source compares the Euclidean distance; the embedding
compares its square, which is equivalent for nonnegative radii), and
scores more than 85 % of the current best. -/
def preferCond (w : ℕ) (best c : CoinCand) : Bool :=
  decide ((best.r : ℚ) * 1.3 < (c.r : ℚ)) &&
    decide (((c.x : ℚ) - (best.x : ℚ)) * ((c.x : ℚ) - (best.x : ℚ)) +
      ((c.y : ℚ) - (best.y : ℚ)) * ((c.y : ℚ) - (best.y : ℚ)) <
      ((best.r : ℚ) * 1.5) * ((best.r : ℚ) * 1.5)) &&
    decide (scoreCand w best * 0.85 < scoreCand w c)

/-- The post-processing loop over `scored_circles[1:10]`, replacing the
running best whenever `preferCond` holds. -/
def preferLoop (w : ℕ) (best : CoinCand) : List CoinCand → CoinCand
  | [] => best
  | c :: cs => if preferCond w best c then preferLoop w c cs else preferLoop w best cs

/-- The survivors of the `continue`-rejections, in candidate order. -/
def coinSurvivors (w h : ℕ) (cands : List CoinCand) : List CoinCand :=
  cands.filter (passPre w h)

/-- The circle returned by `_detect_coin_single_pass`: survivors sorted by
descending score; the head, adjusted by the larger-circle preference over
the next nine entries (`none` when no candidate survives). -/
def selectCoin (w h : ℕ) (cands : List CoinCand) : Option CoinCand :=
  match sortByKeyDesc (scoreCand w) (coinSurvivors w h cands) with
  | [] => none
  | b :: rest => some (preferLoop w b (rest.take 9))

/-- The score returned with the selected circle (0 when none). -/
def selectScore (w h : ℕ) (cands : List CoinCand) : ℚ :=
  match selectCoin w h cands with
  | none => 0
  | some c => scoreCand w c

/-- `int(v / scale)` with `scale = MAX_DETECTION_WIDTH / w` when the image
was downscaled (`w > 1200`), else identity; the Python truncation equals
the floor here because the value is nonnegative. -/
def rescaleLen (w v : ℕ) : ℕ := if 1200 < w then v * w / 1200 else v

/-- Result of `_detect_coin_reference` (the fields the claims read). -/
structure CoinRefResult where
  detected : Bool
  ppcm : ℚ
  centerX : ℕ
  centerY : ℕ
  radius : ℕ
  diamPx : ℕ
  confidence : ℚ
deriving DecidableEq

/-- The not-detected result `{"detected": False, "coin_type": None}`. -/
def coinNotFound : CoinRefResult := ⟨false, 0, 0, 0, 0, 0, 0⟩

/-- `DimensionEstimator._detect_coin_reference` (lines 218–280), from the
single-pass result: accept when a circle was selected with score at least
0.40; rescale to original coordinates; `pixels_per_cm` is derived from the
hard-coded ₱5 diameter (`coin_diameter_mm = 25`), via
`pixels_per_mm = diameter_px / 25` and `pixels_per_cm = pixels_per_mm * 10`.
`w h` are the dimensions of the (possibly downscaled) working image and
`origW` the original width driving the rescale. -/
def detectCoinReference (origW w h : ℕ) (cands : List CoinCand) : CoinRefResult :=
  match selectCoin w h cands with
  | none => coinNotFound
  | some c =>
    if 0.40 ≤ scoreCand w c then
      ⟨true,
        ((2 * rescaleLen origW c.r : ℕ) : ℚ) / 25 * 10,
        rescaleLen origW c.x, rescaleLen origW c.y,
        rescaleLen origW c.r, 2 * rescaleLen origW c.r,
        min 0.95 (0.5 + scoreCand w c * 0.5)⟩
    else coinNotFound

/-- The keys of `REFERENCE_OBJECTS` in dimension_estimator.py (Python
string keys rendered as constructors; the three non-coin entries carry no
`"diameter"` key). -/
inductive RefType
  | peso1New
  | peso5New
  | peso10New
  | peso20New
  | peso1Old
  | peso5Old
  | peso10Old
  | peso1
  | peso5
  | peso10
  | peso20
  | creditCard
  | a4Paper
  | aruco4x4
deriving DecidableEq

/-- `self.reference_info.get("diameter", 2.4)` as used by
`fast_coin_search`: the configured coin's physical diameter in
centimetres, 2.4 when the entry has no diameter key. -/
def refDiameter : RefType → ℚ
  | .peso1New => 2.0
  | .peso5New => 2.4
  | .peso10New => 2.45
  | .peso20New => 2.8
  | .peso1Old => 2.4
  | .peso5Old => 2.5
  | .peso10Old => 2.7
  | .peso1 => 2.0
  | .peso5 => 2.4
  | .peso10 => 2.45
  | .peso20 => 2.8
  | .creditCard => 2.4
  | .a4Paper => 2.4
  | .aruco4x4 => 2.4

/-- One Hough candidate of `fast_coin_search` (lines 546–787) with the
statistics its scoring reads: edge hits on the 24-point ring and how many
ring points were in bounds, interior patch size / grey mean / grey
deviation, exterior ring pixel count / grey mean / mean saturation, the
interior HSV patch size, its mean saturation and high-saturation
fraction. -/
structure FastCand where
  cx : ℕ
  cy : ℕ
  r : ℕ
  edgeHits : ℕ
  validCount : ℕ
  interiorSize : ℕ
  intMean : ℚ
  intStd : ℚ
  extCount : ℕ
  extMean : ℚ
  extSat : ℚ
  roiSize : ℕ
  meanS : ℚ
  highSatFrac : ℚ
deriving DecidableEq

/-- The bounds check of the fast loop
(`cx - r < 2 or cy - r < 2 or cx + r >= w - 2 or cy + r >= h - 2`,
with natural subtraction matching the Python comparisons). -/
def fastBoundsOk (w h : ℕ) (c : FastCand) : Bool :=
  !(decide (c.cx - c.r < 2) || decide (c.cy - c.r < 2) ||
    decide (w - 2 ≤ c.cx + c.r) || decide (h - 2 ≤ c.cy + c.r))

/-- Rejection of circles centred inside the (shrunk) fruit rectangle. -/
def insideFruit (fr : Option (ℚ × ℚ × ℚ × ℚ)) (c : FastCand) : Bool :=
  match fr with
  | none => false
  | some (x1, y1, x2, y2) =>
    decide (x1 < (c.cx : ℚ) ∧ (c.cx : ℚ) < x2 ∧ y1 < (c.cy : ℚ) ∧ (c.cy : ℚ) < y2)

/-- `edge_ratio = edge_hits / max(1, sum(valid))`. -/
def edgeFrac (c : FastCand) : ℚ := ((c.edgeHits : ℕ) : ℚ) / ((max 1 c.validCount : ℕ) : ℚ)

/-- The five-plus-one criterion score of `fast_coin_search`. -/
def fastScore (w : ℕ) (c : FastCand) : ℚ :=
  min 0.25 (edgeFrac c * 0.42) +
    (if 4 < c.interiorSize ∧ 4 < c.extCount then
      (if 30 < |c.intMean - c.extMean| then (0.20 : ℚ)
       else if 20 < |c.intMean - c.extMean| then 0.15
       else if 12 < |c.intMean - c.extMean| then 0.08
       else 0)
    else 0) +
    (if 16 < c.interiorSize then
      (if 12 < c.intStd ∧ c.intStd < 55 then (0.15 : ℚ)
       else if 8 < c.intStd ∧ c.intStd < 60 then 0.08
       else 0)
    else 0) +
    (if 0 < c.roiSize then
      (if c.meanS < 45 ∧ c.highSatFrac < 0.10 then (0.15 : ℚ)
       else if c.meanS < 65 ∧ c.highSatFrac < 0.25 then 0.08
       else 0)
    else 0) +
    (if 4 < c.extCount then
      (if 190 < c.extMean ∧ c.extSat < 40 then (0.20 : ℚ)
       else if 170 < c.extMean ∧ c.extSat < 55 then 0.12
       else if 150 < c.extMean ∧ c.extSat < 40 then 0.06
       else 0)
    else 0) +
    (if 0.04 < ((2 * c.r : ℕ) : ℚ) / ((w : ℕ) : ℚ) ∧
        ((2 * c.r : ℕ) : ℚ) / ((w : ℕ) : ℚ) < 0.12 then (0.05 : ℚ)
     else 0)

/-- Membership of a fast candidate in the scored `candidates` list: in
bounds, not centred in the fruit rectangle, and edge continuity at least
0.15 (the `continue` after criterion 1). -/
def fastKeep (w h : ℕ) (fr : Option (ℚ × ℚ × ℚ × ℚ)) (c : FastCand) : Bool :=
  fastBoundsOk w h c && !insideFruit fr c && decide (0.15 ≤ edgeFrac c)

/-- `int(v / scale)` of the fast path, where
`scale = 512 / max(h_orig, w_orig)` when that maximum exceeds 512. -/
def fastRescale (maxDim v : ℕ) : ℕ := if 512 < maxDim then v * maxDim / 512 else v

/-- Result of `fast_coin_search` (the fields the claims read). -/
structure FastResult where
  detected : Bool
  centerX : ℕ
  centerY : ℕ
  radius : ℕ
  diamPx : ℕ
  coinDiamCm : ℚ
  ppcm : ℚ
  confidence : ℚ
deriving DecidableEq

/-- The `{"detected": False}` result of `fast_coin_search`. -/
def fastNotDetected : FastResult := ⟨false, 0, 0, 0, 0, 0, 0, 0⟩

/-- The validation loop over the sorted fast candidates: stop (break) at
the first score below 0.55; map back to original coordinates; derive
`pixels_per_cm = (r_orig * 2) / coin_diameter_cm`; when a fruit box size
is known, skip candidates implying an implausible fruit size. -/
def fastValidate (w maxDim : ℕ) (coinDiam : ℚ) (fruitSize : Option (ℚ × ℚ)) :
    List FastCand → Option FastResult
  | [] => none
  | c :: cs =>
    if fastScore w c < 0.55 then none
    else
      if (match fruitSize with
          | some (fw, fh) =>
            let ppcm := ((fastRescale maxDim c.r * 2 : ℕ) : ℚ) / coinDiam
            decide (9.0 < max (fw / ppcm) (fh / ppcm) ∨ max (fw / ppcm) (fh / ppcm) < 2.5 ∨
              7.0 < min (fw / ppcm) (fh / ppcm) ∨ min (fw / ppcm) (fh / ppcm) < 1.5)
          | none => false) then
        fastValidate w maxDim coinDiam fruitSize cs
      else
        some ⟨true, fastRescale maxDim c.cx, fastRescale maxDim c.cy,
          fastRescale maxDim c.r, fastRescale maxDim c.r * 2, coinDiam,
          ((fastRescale maxDim c.r * 2 : ℕ) : ℚ) / coinDiam,
          min 0.90 (fastScore w c)⟩

/-- `DimensionEstimator.fast_coin_search`: skip outright when the border
brightness is below 165 (outdoor photo); otherwise score the first ten
Hough circles, drop those out of bounds / inside the fruit box / with weak
edge rings, sort by score and validate.  `w h` are the downscaled image
dimensions, `maxDim = max(h_orig, w_orig)` drives the rescale, `coinDiam`
is the configured reference diameter. -/
def fastCoinSearch (w h maxDim : ℕ) (borderBrightness coinDiam : ℚ)
    (fruitRect : Option (ℚ × ℚ × ℚ × ℚ)) (fruitSize : Option (ℚ × ℚ))
    (circles : List FastCand) : FastResult :=
  if borderBrightness < 165 then fastNotDetected
  else
    match (circles.take 10).filter (fastKeep w h fruitRect) with
    | [] => fastNotDetected
    | k :: ks =>
      match fastValidate w maxDim coinDiam fruitSize
          (sortByKeyDesc (fastScore w) (k :: ks)) with
      | none => fastNotDetected
      | some res => res

/-- The measurement record produced by `_measure_fruit`
(presentation rounding omitted). -/
structure Measurement where
  lengthCm : ℚ
  widthCm : ℚ
  areaCm2 : ℚ
  weightG : ℚ
  kernelG : ℚ
deriving DecidableEq

/-- `DimensionEstimator._measure_fruit` (lines 893–938), given the
ellipse axes of the segmented fruit contour in pixels and the calibration
scale: the axes are swapped so the major one is the larger, so
`length_cm = np.clip(major_axis_px / pixels_per_cm, 3.0, 8.0)`. -/
def fruitLengthCm (axis1Px axis2Px ppcm : ℚ) : ℚ :=
  clip (max axis1Px axis2Px / ppcm) 3.0 8.0

/-- `width_cm = np.clip(minor_axis_px / pixels_per_cm, 1.5, 6.0)`. -/
def fruitWidthCm (axis1Px axis2Px ppcm : ℚ) : ℚ :=
  clip (min axis1Px axis2Px / ppcm) 1.5 6.0

/-- `DimensionEstimator._measure_fruit` assembled: area from the clamped
axes, ellipsoid-volume weight, empirical kernel mass. -/
def measureFruit (axis1Px axis2Px ppcm : ℚ) : Measurement :=
  ⟨fruitLengthCm axis1Px axis2Px ppcm,
    fruitWidthCm axis1Px axis2Px ppcm,
    npPi * (fruitLengthCm axis1Px axis2Px ppcm / 2) * (fruitWidthCm axis1Px axis2Px ppcm / 2),
    clip ((4 / 3) * npPi * (fruitLengthCm axis1Px axis2Px ppcm / 2) *
      (fruitWidthCm axis1Px axis2Px ppcm / 2) *
      (fruitWidthCm axis1Px axis2Px ppcm / 2 * 0.8) * 0.85) 15.0 60.0,
    clip (0.1 + fruitLengthCm axis1Px axis2Px ppcm * fruitWidthCm axis1Px axis2Px ppcm /
      35 * 0.6) 0.1 0.9⟩

/-- Ellipse axes as returned by `cv2.fitEllipse` (one of the two is the
major axis; the callers swap as needed). -/
structure EllipseAxes where
  axis1 : ℚ
  axis2 : ℚ
deriving DecidableEq

/-- Result of `_estimate_from_contour` (the fields the claims read). -/
structure ContourResult where
  detected : Bool
  ppcm : ℚ
  confidence : ℚ
  hasNote : Bool
  lengthCm : ℚ
  widthCm : ℚ
  weightG : ℚ
  kernelG : ℚ
deriving DecidableEq

/-- `DimensionEstimator._estimate_from_contour` (lines 789–855):
`fit = none` models a missing fruit contour (or one with fewer than five
points), yielding a not-detected result.  Otherwise the photo-framing
prior estimates the length from the major-axis-to-diagonal ratio, the
width from the ellipse's own aspect, fixing `confidence = 0.40` and the
note recommending a reference object.  `imgDiagonal` is
`sqrt(h² + w²)` (supplied, since it is irrational in general). -/
def estimateFromContour (fit : Option EllipseAxes) (imgDiagonal : ℚ) : ContourResult :=
  match fit with
  | none => ⟨false, 0, 0, false, 0, 0, 0, 0⟩
  | some f =>
    let major := max f.axis1 f.axis2
    let minor := min f.axis1 f.axis2
    let majorFrac := major / imgDiagonal
    let len := if 0.2 < majorFrac ∧ majorFrac < 0.8 then
        clip (4.5 * (majorFrac / 0.4)) 3.5 5.5
      else 4.5
    let wid := clip (len * (if 0 < major then minor / major else 0.7)) 2.0 4.0
    let volume := (4 / 3) * npPi * (len / 2) * (wid / 2) * (wid / 2 * 0.8)
    ⟨true, major / len, 0.40, true, len, wid,
      clip (volume * 0.85) 15.0 60.0,
      clip (0.1 + len * wid / 35 * 0.6) 0.1 0.9⟩

/-- `_detect_card_reference` is disabled in the source and always returns
a not-detected result. -/
def detectCardReference : Bool := false

/-- The `method_used` tag of `estimate_from_image`. -/
inductive EstMethod
  | aruco
  | coin
  | card
  | contourEst
deriving DecidableEq

/-- The ArUco detection outcome consumed by `estimate_from_image`
(external detector; confidence 0.95 on success per `_detect_aruco`). -/
structure ArucoResult where
  detected : Bool
  ppcm : ℚ
deriving DecidableEq

/-- The fields of the `estimate_from_image` result dictionary that the
claims read. -/
structure EstimateResult where
  methodUsed : EstMethod
  referenceDetected : Bool
  ppcm : ℚ
  confidence : ℚ
  hasNote : Bool
deriving DecidableEq

/-- The `reference_method == "auto"` branch of
`DimensionEstimator.estimate_from_image` (lines 110–136): ArUco first,
then the thorough coin search, then the (disabled) card detector, then
the contour fallback. -/
def estimateAuto (aruco : ArucoResult) (coin : CoinRefResult)
    (contour : ContourResult) : EstimateResult :=
  if aruco.detected then ⟨.aruco, true, aruco.ppcm, 0.95, false⟩
  else if coin.detected then ⟨.coin, true, coin.ppcm, coin.confidence, false⟩
  else if detectCardReference then ⟨.card, true, 0, 0, false⟩
  else ⟨.contourEst, false, contour.ppcm, contour.confidence, contour.hasNote⟩

/-- A skin pixel: inside both the HSV and YCrCb skin bands (also inside
the brown band, which the brown-nonskin mask excludes). -/
def skinPx : GuardPixel := ⟨10, 100, 150, 150, 150, 100, false⟩

/-- A vegetation-like strict-green pixel (saturation 200), in the fruit
mask. -/
def greenPx : GuardPixel := ⟨50, 200, 150, 0, 0, 0, true⟩

/-- A fruit-like strict-green pixel (saturation 100), in the fruit mask. -/
def greenLowPx : GuardPixel := ⟨50, 100, 150, 0, 0, 0, true⟩

/-- A brown-band pixel that is not skin (fails the YCrCb skin band), in
the fruit mask. -/
def brownPx : GuardPixel := ⟨20, 40, 100, 0, 0, 0, true⟩

/-- A neutral background pixel matching no band. -/
def bgPx : GuardPixel := ⟨0, 0, 60, 255, 0, 0, false⟩

/-- A 100-pixel image with 30 % skin, 7 % strict green and 14 % brown
(non-skin): skin exceeds 25 %, green+yellow is below 8 %, brown-nonskin is
below 20 %, but their union reaches 21 %. -/
def c3Pix : List GuardPixel :=
  List.replicate 30 skinPx ++ List.replicate 7 greenPx ++
    List.replicate 14 brownPx ++ List.replicate 49 bgPx

/-- A 100-pixel image with 30 % skin and 11 % fruit-like green. -/
def c4bPix : List GuardPixel :=
  List.replicate 30 skinPx ++ List.replicate 11 greenLowPx ++
    List.replicate 59 bgPx

/-- A 2000-pixel (40×50) verify input: 30 % skin, exactly 10 % strict
green at saturation 200, 20 % brown in the fruit mask; colour and texture
layers pass, the shape layer fails (aspect 5). -/
def exInputA : VerifyInput :=
  ⟨40, 50,
    List.replicate 600 skinPx ++ List.replicate 200 greenPx ++
      List.replicate 400 brownPx ++ List.replicate 800 bgPx,
    0, false, false, false,
    ⟨true, 600, 160, 5, 700⟩,
    ⟨600, 30, 0, 5, 100⟩⟩

/-- Like `exInputA` but with 11 % strict green (220 of 2000 pixels). -/
def exInputC : VerifyInput :=
  ⟨40, 50,
    List.replicate 600 skinPx ++ List.replicate 220 greenPx ++
      List.replicate 400 brownPx ++ List.replicate 780 bgPx,
    0, false, false, false,
    ⟨true, 600, 160, 5, 700⟩,
    ⟨600, 30, 0, 5, 100⟩⟩

/-- A 5000-pixel (50×100) verify input whose 500-pixel fruit mask covers
10 % of the image and whose shape measurements give a near-perfect small
circle (aspect 1, circularity above 0.90). -/
def exInputB : VerifyInput :=
  ⟨50, 100,
    List.replicate 500 greenLowPx ++ List.replicate 4500 bgPx,
    0, false, false, false,
    ⟨true, 800, 100, 1, 800⟩,
    ⟨500, 30, 0, 5, 100⟩⟩

/-- A coin candidate (for a 1000×800 image) centred at 52 % of the image
width: inside the right half, yet within the code's 0.55 position
threshold, so it survives to scoring. -/
def coinCandRight : CoinCand := ⟨520, 400, 100, 20, 30, 150, 20, 300, 32, 0.2, 100, 220, 150⟩

/-- A well-formed coin candidate (for a 1000×800 image) at 30 % of the
image width that passes every filter and scores far above the 0.40
acceptance threshold. -/
def coinCandGood : CoinCand := ⟨300, 400, 100, 20, 30, 150, 20, 300, 32, 0.2, 100, 220, 150⟩

/-- A coin candidate touching the left image border (`x ≤ r`). -/
def coinCandBorder : CoinCand := ⟨80, 400, 100, 20, 30, 150, 20, 300, 32, 0.2, 100, 220, 150⟩

/-- A fast-search candidate scoring 1.0 on all criteria. -/
def fastCandGood : FastCand := ⟨100, 100, 25, 20, 24, 100, 100, 20, 24, 220, 30, 100, 30, 0.05⟩

/-- `List.countP` over `List.replicate` evaluates pointwise. -/
theorem countP_replicate {A : Type} (p : A → Bool) (a : A) (n : ℕ) :
    (List.replicate n a).countP p = if p a then n else 0 := by
  induction n with
  | zero => simp
  | succ n ih =>
    rw [List.replicate_succ, List.countP_cons, ih]
    by_cases h : p a <;> simp [h]

/-- `List.filter` over `List.replicate` evaluates pointwise. -/
theorem filter_replicate {A : Type} (p : A → Bool) (a : A) (n : ℕ) :
    (List.replicate n a).filter p = if p a then List.replicate n a else [] := by
  induction n with
  | zero => simp
  | succ n ih =>
    rw [List.replicate_succ, List.filter_cons, ih]
    by_cases h : p a <;> simp [h, List.replicate_succ]

/-- `getD` of a replicated list below its length. -/
theorem getD_replicate (a d : ℕ) : ∀ (n i : ℕ), i < n →
    (List.replicate n a).getD i d = a := by
  intro n
  induction n with
  | zero => intro i hi; omega
  | succ n ih =>
    intro i hi
    cases i with
    | zero => simp [List.replicate_succ]
    | succ i =>
      rw [List.replicate_succ]
      simpa using ih i (by omega)

/-- Inserting the repeated element into a replicated list keeps it
replicated. -/
theorem insertAsc_replicate (a : ℕ) (n : ℕ) :
    insertAsc a (List.replicate n a) = List.replicate (n + 1) a := by
  cases n with
  | zero => simp [insertAsc]
  | succ n => simp [List.replicate_succ, insertAsc]

/-- Sorting a replicated list is the identity. -/
theorem sortAsc_replicate (a : ℕ) (n : ℕ) :
    sortAsc (List.replicate n a) = List.replicate n a := by
  induction n with
  | zero => simp [sortAsc]
  | succ n ih =>
    rw [List.replicate_succ, sortAsc, ih, insertAsc_replicate, List.replicate_succ]

/-- The median of a nonempty constant list is its value. -/
theorem npMedian_replicate (a : ℕ) (n : ℕ) (hn : 0 < n) :
    npMedian (List.replicate n a) = (a : ℚ) := by
  simp only [npMedian]
  rw [sortAsc_replicate, List.length_replicate]
  have h1 : (List.replicate n a).getD (n / 2) 0 = a :=
    getD_replicate a 0 n (n / 2) (by omega)
  rcases Nat.mod_two_eq_zero_or_one n with hmod | hmod
  · have h2 : (List.replicate n a).getD (n / 2 - 1) 0 = a :=
      getD_replicate a 0 n (n / 2 - 1) (by omega)
    rw [if_neg (by omega), if_neg (by omega), h1, h2]
    ring
  · rw [if_neg (by omega), if_pos hmod, h1]

/-- `np.clip` lands inside the clamp interval. -/
theorem clip_mem (x lo hi : ℚ) (h : lo ≤ hi) :
    lo ≤ clip x lo hi ∧ clip x lo hi ≤ hi := by
  constructor
  · exact le_min (le_max_right x lo) h
  · exact min_le_right _ _

/-- A raw value below the lower clamp is replaced by the lower bound. -/
theorem clip_of_lt (x lo hi : ℚ) (h : lo ≤ hi) (hx : x < lo) : clip x lo hi = lo := by
  unfold clip
  rw [max_eq_right hx.le, min_eq_left h]

/-- A raw value above the upper clamp is replaced by the upper bound. -/
theorem clip_of_gt (x lo hi : ℚ) (hx : hi < x) : clip x lo hi = hi := by
  unfold clip
  rw [min_eq_right (le_trans hx.le (le_max_left x lo))]

/-- Pixel coverages are nonnegative. -/
theorem cov_nonneg (f : GuardPixel → Bool) (ps : List GuardPixel) : 0 ≤ cov f ps := by
  unfold cov
  positivity

/-- Pixel coverages are at most one. -/
theorem cov_le_one (f : GuardPixel → Bool) (ps : List GuardPixel) : cov f ps ≤ 1 := by
  unfold cov
  rcases Nat.eq_zero_or_pos ps.length with h | h
  · simp [h]
  · rw [div_le_one (by exact_mod_cast h)]
    exact_mod_cast ps.countP_le_length f

/-- Counting is monotone along a pointwise coupling that preserves the
predicate forward. -/
theorem countP_le_of_forall2 {A : Type} (f : A → Bool) (R : A → A → Prop)
    (hR : ∀ p q, R p q → f p = true → f q = true) :
    ∀ {ps qs : List A}, List.Forall₂ R ps qs → ps.countP f ≤ qs.countP f := by
  intro ps qs h
  induction h with
  | nil => simp
  | @cons p q ps qs hpq _ ih =>
    rw [List.countP_cons, List.countP_cons]
    have hstep : (if f p = true then 1 else 0) ≤ (if f q = true then 1 else 0) := by
      by_cases hp : f p = true
      · rw [if_pos hp, if_pos (hR p q hpq hp)]
      · rw [if_neg hp]
        split <;> omega
    omega

/-- Counting is preserved along a pointwise coupling that preserves the
predicate in both directions. -/
theorem countP_eq_of_forall2 {A : Type} (f : A → Bool) (R : A → A → Prop)
    (hR : ∀ p q, R p q → f p = f q) :
    ∀ {ps qs : List A}, List.Forall₂ R ps qs → ps.countP f = qs.countP f := by
  intro ps qs h
  induction h with
  | nil => rfl
  | @cons p q ps qs hpq _ ih =>
    rw [List.countP_cons, List.countP_cons, ih, hR p q hpq]

/-- The colour-layer score lies in `[0, 1]`. -/
theorem checkColour_score_mem (ps : List GuardPixel) :
    0 ≤ (checkColour ps).score ∧ (checkColour ps).score ≤ 1 := by
  have h0 : (0 : ℚ) ≤ cov talisayAny ps / 0.60 := by
    have := cov_nonneg talisayAny ps
    positivity
  have hmin0 : (0 : ℚ) ≤ min 1 (cov talisayAny ps / 0.60) := le_min (by norm_num) h0
  have hmin1 : min 1 (cov talisayAny ps / 0.60) ≤ 1 := min_le_left _ _
  unfold checkColour
  split_ifs with h1 h2
  · simp
  · constructor <;> simp only <;> nlinarith
  · exact ⟨hmin0, hmin1⟩

/-- The aspect contribution lies in `[0, 0.40]`. -/
theorem aspectScorePart_mem (a : ℚ) :
    0 ≤ aspectScorePart a ∧ aspectScorePart a ≤ 0.40 := by
  unfold aspectScorePart
  split_ifs with h1 h2
  · have habs : |a - (1.25 + 2.40) / 2| ≤ (2.40 - 1.25) / 2 := by
      rw [abs_le]
      constructor <;> [linarith [h1.1]; linarith [h1.2]]
    have habs0 : (0 : ℚ) ≤ |a - (1.25 + 2.40) / 2| := abs_nonneg _
    have hq : |a - (1.25 + 2.40) / 2| / ((2.40 - 1.25) / 2) ≤ 1 := by
      rw [div_le_one (by norm_num)]
      linarith
    have hq0 : (0 : ℚ) ≤ |a - (1.25 + 2.40) / 2| / ((2.40 - 1.25) / 2) := by positivity
    constructor <;> nlinarith
  · norm_num
  · norm_num

/-- The circularity contribution lies in `[0, 0.30]`. -/
theorem circScorePart_mem (c : ℚ) :
    0 ≤ circScorePart c ∧ circScorePart c ≤ 0.30 := by
  unfold circScorePart
  split_ifs <;> norm_num

/-- The solidity contribution lies in `[0, 0.30]`. -/
theorem solidityScorePart_mem (s : ℚ) :
    0 ≤ solidityScorePart s ∧ solidityScorePart s ≤ 0.30 := by
  unfold solidityScorePart
  split_ifs <;> norm_num

/-- The shape score lies in `[0, 1]`. -/
theorem shapeScore_mem (m : ShapeMeasure) : 0 ≤ shapeScore m ∧ shapeScore m ≤ 1 := by
  unfold shapeScore
  have h1 := aspectScorePart_mem m.aspect
  have h2 := circScorePart_mem (shapeCircularity m)
  have h3 := solidityScorePart_mem (shapeSolidity m)
  constructor <;> [linarith [h1.1, h2.1, h3.1]; linarith [h1.2, h2.2, h3.2]]

/-- The shape-layer score lies in `[0, 1]`. -/
theorem checkShape_score_mem (m : ShapeMeasure) :
    0 ≤ (checkShape m).score ∧ (checkShape m).score ≤ 1 := by
  unfold checkShape
  split_ifs with h
  · simp
  · exact shapeScore_mem m

/-- The texture score lies in `[0, 1]`. -/
theorem textureScore_mem (t : TextureStats) : 0 ≤ textureScore t ∧ textureScore t ≤ 1 := by
  unfold textureScore textureStdScore textureMetallicScore textureHueScore textureLapScore
  split_ifs <;> norm_num

/-- The texture-layer score lies in `[0, 1]`. -/
theorem checkTexture_score_mem (t : TextureStats) :
    0 ≤ (checkTexture t).score ∧ (checkTexture t).score ≤ 1 := by
  unfold checkTexture
  split_ifs
  · norm_num
  · exact textureScore_mem t

/-- The composite score lies in `[0, 1]`. -/
theorem composite_mem (inp : VerifyInput) : 0 ≤ composite inp ∧ composite inp ≤ 1 := by
  unfold composite colourRes shapeRes textureRes
  have h1 := checkColour_score_mem (maskedPixels inp)
  have h2 := checkShape_score_mem inp.shapeM
  have h3 := checkTexture_score_mem inp.textureS
  constructor <;> nlinarith [h1.1, h1.2, h2.1, h2.2, h3.1, h3.2]

/-- Insertion never yields an empty list. -/
theorem insertByKey_ne_nil {A : Type} (key : A → ℚ) (c : A) (l : List A) :
    insertByKey key c l ≠ [] := by
  cases l with
  | nil => simp [insertByKey]
  | cons d ds =>
    rw [insertByKey]
    split <;> simp

/-- The sort is empty exactly when the input is. -/
theorem sortByKeyDesc_eq_nil_iff {A : Type} (key : A → ℚ) (l : List A) :
    sortByKeyDesc key l = [] ↔ l = [] := by
  cases l with
  | nil => simp [sortByKeyDesc]
  | cons a l => simp [sortByKeyDesc, insertByKey_ne_nil]

/-- The head of the descending sort bounds the key of every input
element. -/
theorem sortByKeyDesc_head_max {A : Type} (key : A → ℚ) :
    ∀ (l : List A) (b : A) (rest : List A),
      sortByKeyDesc key l = b :: rest → ∀ x ∈ l, key x ≤ key b := by
  intro l
  induction l with
  | nil =>
    intro b rest h x hx
    simp at hx
  | cons a l ih =>
    intro b rest h x hx
    rw [sortByKeyDesc] at h
    cases hs : sortByKeyDesc key l with
    | nil =>
      rw [hs, insertByKey] at h
      have hl : l = [] := (sortByKeyDesc_eq_nil_iff key l).mp hs
      subst hl
      rcases List.mem_cons.mp hx with rfl | hxl
      · rw [List.cons.injEq] at h
        rw [h.1]
      · simp at hxl
    | cons d ds =>
      rw [hs, insertByKey] at h
      by_cases hcond : key d ≤ key a
      · rw [if_pos hcond, List.cons.injEq] at h
        rcases List.mem_cons.mp hx with rfl | hxl
        · rw [h.1]
        · rw [← h.1]
          exact le_trans (ih d ds hs x hxl) hcond
      · rw [if_neg hcond, List.cons.injEq] at h
        push_neg at hcond
        rcases List.mem_cons.mp hx with rfl | hxl
        · rw [← h.1]
          exact hcond.le
        · rw [← h.1]
          exact ih d ds hs x hxl

/-- When the larger-circle preference fires nowhere, the loop keeps the
head. -/
theorem preferLoop_of_none (w : ℕ) (best : CoinCand) :
    ∀ l : List CoinCand, (∀ c ∈ l, preferCond w best c = false) →
      preferLoop w best l = best := by
  intro l
  induction l with
  | nil => intro _; rfl
  | cons c cs ih =>
    intro h
    rw [preferLoop, h c (List.mem_cons_self c cs)]
    exact ih fun d hd => h d (List.mem_cons_of_mem c hd)

/-- Any result the fast validation loop accepts satisfies the exact
calibration law `pixels_per_cm = diameter_px / coin_diameter_cm`. -/
theorem fastValidate_ppcm (w maxDim : ℕ) (coinDiam : ℚ) (fs : Option (ℚ × ℚ)) :
    ∀ (l : List FastCand) (res : FastResult),
      fastValidate w maxDim coinDiam fs l = some res →
      res.detected = true ∧ res.ppcm = ((res.diamPx : ℕ) : ℚ) / coinDiam ∧
        res.diamPx = res.radius * 2 ∧ res.coinDiamCm = coinDiam := by
  intro l
  induction l with
  | nil =>
    intro res h
    simp [fastValidate] at h
  | cons c cs ih =>
    intro res h
    simp only [fastValidate] at h
    split_ifs at h with h1 h2
    · exact ih res h
    · rw [Option.some.injEq] at h
      subst h
      exact ⟨rfl, rfl, rfl, rfl⟩

/-- The thorough coin search reports a detection exactly when a circle
was selected and its score reaches 0.40. -/
theorem detectCoinReference_detected_iff (origW w h : ℕ) (cands : List CoinCand) :
    (detectCoinReference origW w h cands).detected = true ↔
      ∃ c, selectCoin w h cands = some c ∧ 0.40 ≤ scoreCand w c := by
  unfold detectCoinReference
  cases hs : selectCoin w h cands with
  | none => simp [coinNotFound]
  | some c =>
    dsimp only
    split_ifs with h40
    · simp [h40]
    · simp [coinNotFound, h40]

/-- When no early layer fires, `verify` reaches the composite decision. -/
theorem verify_composite_stage (inp : VerifyInput)
    (hb : inp.isBlank = false) (hp : (personRes inp).isPerson = false)
    (ha : 500 ≤ fruitArea inp) (hc : inp.isCapsicum = false)
    (hn : inp.isNonTalisay = false) (hg : shapeGate inp = false) :
    verify inp =
      if acceptedFinal inp then ⟨true, .accept, composite inp⟩
      else if (colourRes inp).passes = false then ⟨false, .rejectWrongColour, composite inp⟩
      else if (shapeRes inp).passes = false then ⟨false, .rejectWrongShape, composite inp⟩
      else ⟨false, .rejectLowConfidence, composite inp⟩ := by
  unfold verify
  rw [hb, hp, hc, hn, hg]
  simp only [Bool.false_eq_true, if_false]
  rw [if_neg (by omega : ¬ fruitArea inp < 500)]

/-- The floor rule: accepted after the 0.35 floor exactly when the base
test holds and the composite is at least 0.35. -/
theorem acceptedAfterFloor_iff (inp : VerifyInput) :
    acceptedAfterFloor inp = true ↔
      (acceptedBase inp = true ∧ 0.35 ≤ composite inp) := by
  unfold acceptedAfterFloor
  split_ifs with h
  · simp only [Bool.false_eq_true, false_iff, not_and]
    intro _
    linarith
  · simp only [not_lt] at h
    simp [h]

/-- The base test in propositional form. -/
theorem acceptedBase_iff (inp : VerifyInput) :
    acceptedBase inp = true ↔
      (MIN_POSITIVE_LAYERS ≤ positiveCount inp ∨
        (2 ≤ positiveCount inp ∧ MIN_GUARD_SCORE ≤ composite inp)) := by
  unfold acceptedBase
  simp [Bool.or_eq_true, Bool.and_eq_true, decide_eq_true_eq]

/-- The final acceptance flag equals the base test gated by the composite
floor and the skin-sensitivity veto. -/
theorem acceptedFinal_iff (inp : VerifyInput) :
    acceptedFinal inp = true ↔
      (acceptedBase inp = true ∧ 0.35 ≤ composite inp ∧ ¬ skinVeto inp) := by
  unfold acceptedFinal skinVeto wasRescued vegetationVeto
  split_ifs with hA h45 hstrong hlen hmed
  · simp only [Bool.false_eq_true, false_iff]
    tauto
  · simp only [Bool.false_eq_true, false_iff]
    tauto
  · rw [acceptedAfterFloor_iff]
    tauto
  · rw [acceptedAfterFloor_iff]
    tauto
  · rw [acceptedAfterFloor_iff]
    tauto
  · rw [acceptedAfterFloor_iff]
    tauto

/-- The `accepted` flag of the verdict equals the final acceptance flag at
the composite stage. -/
theorem verify_accepted_eq (inp : VerifyInput)
    (hb : inp.isBlank = false) (hp : (personRes inp).isPerson = false)
    (ha : 500 ≤ fruitArea inp) (hc : inp.isCapsicum = false)
    (hn : inp.isNonTalisay = false) (hg : shapeGate inp = false) :
    (verify inp).accepted = acceptedFinal inp := by
  rw [verify_composite_stage inp hb hp ha hc hn hg]
  split_ifs with h1 h2 h3 <;> simp_all

/-- C1: at the composite decision stage (no earlier layer rejected), the
verdict's score is `0.45·colour + 0.30·shape + 0.25·texture`, acceptance
holds exactly when (at least 3 layers passed, or at least 2 passed with
composite at least 0.55) and the composite is at least 0.35 and the
skin-sensitivity veto did not fire, and a composite below 0.35 always
rejects. -/
theorem c1_composite_decision (inp : VerifyInput)
    (hb : inp.isBlank = false) (hp : (personRes inp).isPerson = false)
    (ha : 500 ≤ fruitArea inp) (hc : inp.isCapsicum = false)
    (hn : inp.isNonTalisay = false) (hg : shapeGate inp = false) :
    (verify inp).score = composite inp ∧
      ((verify inp).accepted = true ↔
        ((MIN_POSITIVE_LAYERS ≤ positiveCount inp ∨
            (2 ≤ positiveCount inp ∧ MIN_GUARD_SCORE ≤ composite inp)) ∧
          0.35 ≤ composite inp ∧ ¬ skinVeto inp)) ∧
      (composite inp < 0.35 → (verify inp).accepted = false) := by
  refine ⟨?_, ?_, ?_⟩
  · rw [verify_composite_stage inp hb hp ha hc hn hg]
    split_ifs <;> rfl
  · rw [verify_accepted_eq inp hb hp ha hc hn hg, acceptedFinal_iff, acceptedBase_iff]
  · intro hlt
    rw [verify_accepted_eq inp hb hp ha hc hn hg]
    cases hAF : acceptedFinal inp
    · rfl
    · exfalso
      have := (acceptedFinal_iff inp).mp hAF
      linarith [this.2.1]

/-- C2: with no earlier rejection layer fired, a fruit mask covering less
than 12 % of the image whose shape layer reports circularity above 0.90
and aspect below 1.08 (a small near-perfect circle, such as a perfect
circle with aspect 1.00 and circularity 1.00) is rejected with
`REJECT_WRONG_SHAPE` regardless of the colour, texture and composite
scores. -/
theorem c2_small_round_gate (inp : VerifyInput)
    (hb : inp.isBlank = false) (hp : (personRes inp).isPerson = false)
    (ha : 500 ≤ fruitArea inp) (hc : inp.isCapsicum = false)
    (hn : inp.isNonTalisay = false)
    (hcov : maskCoverage inp < 0.12)
    (hcirc : 0.90 < (shapeRes inp).circularity)
    (hasp : (shapeRes inp).aspect < 1.08) :
    (verify inp).verdict = GuardVerdict.rejectWrongShape ∧
      (verify inp).accepted = false := by
  have hg : shapeGate inp = true := by
    unfold shapeGate
    exact decide_eq_true ⟨hcov, hcirc, hasp⟩
  unfold verify
  rw [hb, hp, hc, hn, hg]
  simp only [Bool.false_eq_true, if_false, if_true]
  rw [if_neg (by omega : ¬ fruitArea inp < 500)]
  exact ⟨rfl, rfl⟩

/-- C9 (amended): the verdict kinds form a closed enumeration of exactly
ten kinds (not thirteen), the `accepted` flag is true exactly when the
verdict is `ACCEPT`, and the score always lies in `[0, 1]`. -/
theorem c9_verdict_wellformed :
    Fintype.card GuardVerdict = 10 ∧
      ∀ inp : VerifyInput,
        ((verify inp).accepted = true ↔ (verify inp).verdict = GuardVerdict.accept) ∧
        0 ≤ (verify inp).score ∧ (verify inp).score ≤ 1 := by
  constructor
  · rfl
  · intro inp
    have hcm := composite_mem inp
    unfold verify
    split_ifs <;> simp_all

/-- C9 counterexample: the claim's count of thirteen verdict kinds is
wrong; `GuardVerdict` has ten members. -/
theorem c9_counterexample : ¬ Fintype.card GuardVerdict = 13 := by
  rw [show Fintype.card GuardVerdict = 10 from rfl]
  omega

/-- The pixel coupling of the coverage-monotonicity property: yellow and
brown membership unchanged pixel-for-pixel, green membership only gained. -/
def colourCoupling (p q : GuardPixel) : Prop :=
  talisayYellow p = talisayYellow q ∧ talisayBrown p = talisayBrown q ∧
    (talisayGreen p = true → talisayGreen q = true)

/-- Under the coupling, union-band membership is only gained. -/
theorem talisayAny_mono_of_coupling (p q : GuardPixel) (h : colourCoupling p q)
    (hp : talisayAny p = true) : talisayAny q = true := by
  unfold talisayAny at hp ⊢
  rcases Bool.or_eq_true_iff.mp hp with hgy | hb
  · rcases Bool.or_eq_true_iff.mp hgy with hg | hy
    · simp [h.2.2 hg]
    · simp [← h.1, hy]
  · simp [← h.2.1, hb]

/-- Coverage of a fixed predicate under equal-length lists is compared by
counts. -/
theorem cov_le_cov (f : GuardPixel → Bool) (ps qs : List GuardPixel)
    (hlen : ps.length = qs.length) (hc : ps.countP f ≤ qs.countP f) :
    cov f ps ≤ cov f qs := by
  unfold cov
  rw [← hlen]
  rcases Nat.eq_zero_or_pos ps.length with h0 | h0
  · simp [h0]
  · have hpos : (0 : ℚ) ≤ ((ps.length : ℕ) : ℚ) := by positivity
    apply div_le_div_of_nonneg_right ?_ hpos
    exact_mod_cast hc

/-- C10 (amended): the colour layer.  (i) Monotonicity: changing pixels so
that the green band only gains members (yellow and brown membership
unchanged) never decreases the colour score.  (ii) Provided at least 200
masked pixels are present (below that the layer short-circuits to failure
with score 0), the score is `min(1, coverage/0.60)`, halved exactly when
the dominant band is below 15 %, and the layer passes exactly when total
coverage is at least 30 % and the dominant band at least 15 %. -/
theorem c10_colour_layer :
    (∀ ps qs : List GuardPixel, List.Forall₂ colourCoupling ps qs →
      (checkColour ps).score ≤ (checkColour qs).score) ∧
    (∀ ps : List GuardPixel, 200 ≤ ps.length →
      (checkColour ps).score = (if dominantCov ps < 0.15
          then min 1 (cov talisayAny ps / 0.60) * 0.5
          else min 1 (cov talisayAny ps / 0.60)) ∧
      ((checkColour ps).passes = true ↔
        (MIN_TALISAY_COLOUR_COV ≤ cov talisayAny ps ∧ 0.15 ≤ dominantCov ps))) := by
  constructor
  · intro ps qs h
    have hlen : ps.length = qs.length := List.Forall₂.length_eq h
    by_cases hsmall : ps.length < 200
    · unfold checkColour
      rw [if_pos hsmall, if_pos (by omega : qs.length < 200)]
    · have hg : cov talisayGreen ps ≤ cov talisayGreen qs :=
        cov_le_cov _ _ _ hlen
          (countP_le_of_forall2 _ colourCoupling (fun p q hpq => hpq.2.2) h)
      have hy : cov talisayYellow ps = cov talisayYellow qs := by
        unfold cov
        rw [← hlen, countP_eq_of_forall2 _ colourCoupling (fun p q hpq => hpq.1) h]
      have hbr : cov talisayBrown ps = cov talisayBrown qs := by
        unfold cov
        rw [← hlen, countP_eq_of_forall2 _ colourCoupling (fun p q hpq => hpq.2.1) h]
      have hany : cov talisayAny ps ≤ cov talisayAny qs :=
        cov_le_cov _ _ _ hlen
          (countP_le_of_forall2 _ colourCoupling talisayAny_mono_of_coupling h)
      have hdom : dominantCov ps ≤ dominantCov qs := by
        unfold dominantCov
        rw [hy, hbr]
        exact max_le_max (max_le_max hg le_rfl) le_rfl
      have hs12 : min 1 (cov talisayAny ps / 0.60) ≤ min 1 (cov talisayAny qs / 0.60) := by
        apply min_le_min le_rfl
        apply div_le_div_of_nonneg_right hany
        norm_num
      have hs10 : (0 : ℚ) ≤ min 1 (cov talisayAny ps / 0.60) := by
        apply le_min
        · norm_num
        · have := cov_nonneg talisayAny ps
          positivity
      unfold checkColour
      rw [if_neg hsmall, if_neg (by omega : ¬ qs.length < 200)]
      split_ifs with hd1 hd2 <;> simp only
      · linarith
      · linarith
      · exact absurd (lt_of_le_of_lt hdom (by assumption)) hd1
      · exact hs12
  · intro ps hlen
    unfold checkColour
    rw [if_neg (by omega)]
    split_ifs with hd
    · refine ⟨rfl, ?_⟩
      simp only [Bool.false_eq_true, false_iff, not_and, not_le]
      intro _
      exact hd
    · refine ⟨rfl, ?_⟩
      simp only [decide_eq_true_eq, not_lt.mp hd, and_true]

/-- C3 (amended): in the person layer, a detected face with green+yellow
coverage below 5 % always reports a person; and when the face branch did
not fire and skin coverage exceeds 25 %, the layer does not report a
person exactly when green+yellow coverage is at least 8 %, or the
*combined* rescue coverage (green+yellow together with brown-excluding-
skin) is at least 20 % while skin coverage is below 45 %. -/
theorem c3_person_layer (facesFound : ℕ) (ps : List GuardPixel) :
    (0 < facesFound → cov strongRescue ps < 0.05 →
      (checkPerson facesFound ps).isPerson = true) ∧
    (¬ (0 < facesFound ∧ cov strongRescue ps < 0.05) →
      MAX_SKIN_COVERAGE < cov combinedSkin ps →
      ((checkPerson facesFound ps).isPerson = false ↔
        (0.08 ≤ cov strongRescue ps ∨
          (0.20 ≤ cov totalRescue ps ∧ cov combinedSkin ps < 0.45)))) := by
  constructor
  · intro hf hs
    unfold checkPerson
    rw [if_pos ⟨hf, hs⟩]
  · intro hface hskin
    unfold checkPerson
    rw [if_neg hface, if_pos hskin]
    split_ifs with h8 h20
    · simp [h8]
    · simp [h20]
    · simp only [Bool.true_eq_false, false_iff]
      tauto

/-- C3 counterexample: a 100-pixel image with 30 % skin, 7 % green+yellow
and 14 % brown-excluding-skin.  The code's person layer does *not* reject
it (the combined rescue coverage reaches 21 %), although the claim's
condition — brown-excluding-skin alone at least 20 % — is false here, so
the claim's "exactly when" fails. -/
theorem c3_counterexample :
    (checkPerson 0 c3Pix).isPerson = false ∧
      MAX_SKIN_COVERAGE < cov combinedSkin c3Pix ∧
      ¬ (0.08 ≤ cov strongRescue c3Pix ∨
        (0.20 ≤ cov brownNonskin c3Pix ∧ cov combinedSkin c3Pix < 0.45)) := by
  have hlen : c3Pix.length = 100 := by simp [c3Pix]
  have hskin : c3Pix.countP combinedSkin = 30 := by
    simp only [c3Pix, List.countP_append, countP_replicate]
    decide
  have hstrong : c3Pix.countP strongRescue = 7 := by
    simp only [c3Pix, List.countP_append, countP_replicate]
    decide
  have htotal : c3Pix.countP totalRescue = 21 := by
    simp only [c3Pix, List.countP_append, countP_replicate]
    decide
  have hbrown : c3Pix.countP brownNonskin = 14 := by
    simp only [c3Pix, List.countP_append, countP_replicate]
    decide
  have hcovskin : cov combinedSkin c3Pix = 30 / 100 := by
    unfold cov
    rw [hskin, hlen]
    norm_num
  have hcovstrong : cov strongRescue c3Pix = 7 / 100 := by
    unfold cov
    rw [hstrong, hlen]
    norm_num
  have hcovtotal : cov totalRescue c3Pix = 21 / 100 := by
    unfold cov
    rw [htotal, hlen]
    norm_num
  have hcovbrown : cov brownNonskin c3Pix = 14 / 100 := by
    unfold cov
    rw [hbrown, hlen]
    norm_num
  have h1 : MAX_SKIN_COVERAGE < cov combinedSkin c3Pix := by
    rw [hcovskin]
    norm_num [MAX_SKIN_COVERAGE]
  have h2 : ¬ (0.08 : ℚ) ≤ cov strongRescue c3Pix := by
    rw [hcovstrong]
    norm_num
  have h3 : (0.20 : ℚ) ≤ cov totalRescue c3Pix ∧ cov combinedSkin c3Pix < 0.45 := by
    rw [hcovtotal, hcovskin]
    norm_num
  refine ⟨?_, h1, ?_⟩
  · unfold checkPerson
    rw [if_neg (by simp), if_pos h1, if_neg h2, if_pos h3]
  · rw [hcovstrong, hcovbrown, hcovskin]
    norm_num

/-- C7: every calibrated measurement is clamped — length in `[3, 8]`,
width in `[1.5, 6]`, weight in `[15, 60]`, kernel mass in `[0.1, 0.9]`;
a raw axis outside its range yields exactly the nearest clamp boundary,
never the raw value; and the area is `π·(length/2)·(width/2)` of the
clamped values. -/
theorem c7_measurement_clamps (a1 a2 ppcm : ℚ) :
    ((3.0 ≤ (measureFruit a1 a2 ppcm).lengthCm ∧ (measureFruit a1 a2 ppcm).lengthCm ≤ 8.0) ∧
      (1.5 ≤ (measureFruit a1 a2 ppcm).widthCm ∧ (measureFruit a1 a2 ppcm).widthCm ≤ 6.0) ∧
      (15.0 ≤ (measureFruit a1 a2 ppcm).weightG ∧ (measureFruit a1 a2 ppcm).weightG ≤ 60.0) ∧
      (0.1 ≤ (measureFruit a1 a2 ppcm).kernelG ∧ (measureFruit a1 a2 ppcm).kernelG ≤ 0.9)) ∧
    ((8.0 < max a1 a2 / ppcm → (measureFruit a1 a2 ppcm).lengthCm = 8.0) ∧
      (max a1 a2 / ppcm < 3.0 → (measureFruit a1 a2 ppcm).lengthCm = 3.0) ∧
      (6.0 < min a1 a2 / ppcm → (measureFruit a1 a2 ppcm).widthCm = 6.0) ∧
      (min a1 a2 / ppcm < 1.5 → (measureFruit a1 a2 ppcm).widthCm = 1.5)) ∧
    (measureFruit a1 a2 ppcm).areaCm2 =
      npPi * ((measureFruit a1 a2 ppcm).lengthCm / 2) *
        ((measureFruit a1 a2 ppcm).widthCm / 2) := by
  refine ⟨⟨?_, ?_, ?_, ?_⟩, ⟨?_, ?_, ?_, ?_⟩, ?_⟩
  · exact clip_mem _ 3.0 8.0 (by norm_num)
  · exact clip_mem _ 1.5 6.0 (by norm_num)
  · exact clip_mem _ 15.0 60.0 (by norm_num)
  · exact clip_mem _ 0.1 0.9 (by norm_num)
  · intro hgt
    exact clip_of_gt _ _ _ hgt
  · intro hlt
    exact clip_of_lt _ _ _ (by norm_num) hlt
  · intro hgt
    exact clip_of_gt _ _ _ hgt
  · intro hlt
    exact clip_of_lt _ _ _ (by norm_num) hlt
  · rfl

/-- C7 witness: axes 2000 px and 100 px at 100 px/cm give raw
20 cm × 1 cm, clamped to the 8 cm and 1.5 cm boundaries. -/
theorem c7_measurement_clamps_witness :
    (measureFruit 2000 100 100).lengthCm = 8.0 ∧
      (measureFruit 2000 100 100).widthCm = 1.5 := by
  constructor
  · exact (c7_measurement_clamps 2000 100 100).2.1.1 (by
      rw [show max (2000 : ℚ) 100 = 2000 from by norm_num]
      norm_num)
  · exact (c7_measurement_clamps 2000 100 100).2.1.2.2.2 (by
      rw [show min (2000 : ℚ) 100 = 100 from by norm_num]
      norm_num)

/-- Any detection of the thorough search derives its scale from the
hard-coded 2.5 cm ₱5 diameter. -/
theorem detectCoinReference_ppcm (origW w h : ℕ) (cands : List CoinCand)
    (hdet : (detectCoinReference origW w h cands).detected = true) :
    (detectCoinReference origW w h cands).ppcm =
      (((detectCoinReference origW w h cands).diamPx : ℕ) : ℚ) / 2.5 := by
  unfold detectCoinReference at hdet ⊢
  cases hs : selectCoin w h cands with
  | none =>
    rw [hs] at hdet
    exact absurd hdet (by simp [coinNotFound])
  | some c =>
    rw [hs] at hdet
    dsimp only at hdet ⊢
    split_ifs at hdet ⊢ with h40
    · dsimp only
      ring_nf
    · exact absurd hdet (by simp [coinNotFound])

/-- Any detection of the fast search derives its scale from the
configured coin diameter. -/
theorem fastCoinSearch_ppcm (w h maxDim : ℕ) (bb coinDiam : ℚ)
    (fr : Option (ℚ × ℚ × ℚ × ℚ)) (fs : Option (ℚ × ℚ)) (circles : List FastCand)
    (hdet : (fastCoinSearch w h maxDim bb coinDiam fr fs circles).detected = true) :
    (fastCoinSearch w h maxDim bb coinDiam fr fs circles).ppcm =
      (((fastCoinSearch w h maxDim bb coinDiam fr fs circles).diamPx : ℕ) : ℚ) / coinDiam ∧
    (fastCoinSearch w h maxDim bb coinDiam fr fs circles).coinDiamCm = coinDiam := by
  unfold fastCoinSearch at hdet ⊢
  split_ifs at hdet ⊢ with h165
  · exact absurd hdet (by simp [fastNotDetected])
  · cases hk : (circles.take 10).filter (fastKeep w h fr) with
    | nil =>
      rw [hk] at hdet
      exact absurd hdet (by simp [fastNotDetected])
    | cons k ks =>
      rw [hk] at hdet
      dsimp only at hdet ⊢
      cases hv : fastValidate w maxDim coinDiam fs (sortByKeyDesc (fastScore w) (k :: ks)) with
      | none =>
        rw [hv] at hdet
        exact absurd hdet (by simp [fastNotDetected])
      | some res =>
        have hres := fastValidate_ppcm w maxDim coinDiam fs _ res hv
        exact ⟨hres.2.1, hres.2.2.2⟩

/-- C6 (amended): whenever a coin is accepted with pixel diameter `D`
(after rescaling to original coordinates), the fast search reports
`pixels_per_cm = D / C` exactly for the configured diameter `C`; the
thorough search always reports `D / 2.5` — it hard-codes the ₱5 coin's
25 mm diameter regardless of the configured reference — which is within
±5 % of `D / C` for the default `peso_5` configuration (2.4 cm) but not
for every configured coin type. -/
theorem c6_calibration_scale_law :
    (∀ (w h maxDim : ℕ) (bb coinDiam : ℚ) (fr : Option (ℚ × ℚ × ℚ × ℚ))
        (fs : Option (ℚ × ℚ)) (circles : List FastCand),
      (fastCoinSearch w h maxDim bb coinDiam fr fs circles).detected = true →
      (fastCoinSearch w h maxDim bb coinDiam fr fs circles).ppcm =
        (((fastCoinSearch w h maxDim bb coinDiam fr fs circles).diamPx : ℕ) : ℚ) / coinDiam) ∧
    (∀ (origW w h : ℕ) (cands : List CoinCand),
      (detectCoinReference origW w h cands).detected = true →
      (detectCoinReference origW w h cands).ppcm =
        (((detectCoinReference origW w h cands).diamPx : ℕ) : ℚ) / 2.5) ∧
    (∀ (origW w h : ℕ) (cands : List CoinCand),
      (detectCoinReference origW w h cands).detected = true →
      |(detectCoinReference origW w h cands).ppcm -
          (((detectCoinReference origW w h cands).diamPx : ℕ) : ℚ) /
            refDiameter RefType.peso5| ≤
        0.05 * ((((detectCoinReference origW w h cands).diamPx : ℕ) : ℚ) /
          refDiameter RefType.peso5)) := by
  refine ⟨?_, ?_, ?_⟩
  · intro w h maxDim bb coinDiam fr fs circles hdet
    exact (fastCoinSearch_ppcm w h maxDim bb coinDiam fr fs circles hdet).1
  · intro origW w h cands hdet
    exact detectCoinReference_ppcm origW w h cands hdet
  · intro origW w h cands hdet
    rw [detectCoinReference_ppcm origW w h cands hdet,
      show refDiameter RefType.peso5 = 2.4 from rfl]
    have hd : (0 : ℚ) ≤ (((detectCoinReference origW w h cands).diamPx : ℕ) : ℚ) := by
      positivity
    rw [show (((detectCoinReference origW w h cands).diamPx : ℕ) : ℚ) / 2.5 -
        (((detectCoinReference origW w h cands).diamPx : ℕ) : ℚ) / 2.4 =
        -((((detectCoinReference origW w h cands).diamPx : ℕ) : ℚ) / 60) from by ring]
    rw [abs_neg, abs_of_nonneg (by positivity)]
    rw [show (0.05 : ℚ) * ((((detectCoinReference origW w h cands).diamPx : ℕ) : ℚ) / 2.4) =
        (((detectCoinReference origW w h cands).diamPx : ℕ) : ℚ) / 48 from by ring]
    gcongr
    norm_num

/-- The good candidate passes every pre-scoring filter. -/
theorem coinCandGood_pass : passPre 1000 800 coinCandGood = true := by
  simp only [passPre, inBorderMargin, posFrac, sizeFrac, coinCandGood, Bool.and_eq_true,
    Bool.not_eq_true', Bool.or_eq_false_iff, decide_eq_false_iff_not, decide_eq_true_eq]
  norm_num

/-- The good candidate's exact score (`981/1100 ≈ 0.892`). -/
theorem coinCandGood_score : scoreCand 1000 coinCandGood = 981 / 1100 := by
  norm_num [scoreCand, rimScore, rimContinuity, metallicScore, rimDensityScore,
    contrastScore, uniformityScore, positionScore, posFrac, coinSizeScore, sizeFrac,
    coinCandGood]

/-- Selecting among the single good candidate returns it. -/
theorem coinCandGood_select : selectCoin 1000 800 [coinCandGood] = some coinCandGood := by
  unfold selectCoin coinSurvivors
  rw [show List.filter (passPre 1000 800) [coinCandGood] = [coinCandGood] from by
    simp [List.filter, coinCandGood_pass]]
  rfl

/-- The thorough search detects the good candidate. -/
theorem coinCandGood_detected :
    (detectCoinReference 1000 1000 800 [coinCandGood]).detected = true := by
  unfold detectCoinReference
  rw [coinCandGood_select]
  dsimp only
  rw [if_pos (by rw [coinCandGood_score]; norm_num)]

/-- The reported scale and pixel diameter for the good candidate. -/
theorem coinCandGood_ppcm :
    (detectCoinReference 1000 1000 800 [coinCandGood]).ppcm = 80 ∧
      (detectCoinReference 1000 1000 800 [coinCandGood]).diamPx = 200 := by
  unfold detectCoinReference
  rw [coinCandGood_select]
  dsimp only
  rw [if_pos (by rw [coinCandGood_score]; norm_num)]
  constructor
  · show ((2 * rescaleLen 1000 coinCandGood.r : ℕ) : ℚ) / 25 * 10 = 80
    norm_num [rescaleLen, coinCandGood]
  · show 2 * rescaleLen 1000 coinCandGood.r = 200
    norm_num [rescaleLen, coinCandGood]

/-- C6 counterexample: with the estimator configured for the `peso_1`
coin (2.0 cm), the thorough search still reports `pixels_per_cm = D/2.5`
(here 80 for a 200 px diameter), which is 20 % away from `D/C = 100` —
outside the claimed ±5 % band. -/
theorem c6_counterexample :
    (detectCoinReference 1000 1000 800 [coinCandGood]).detected = true ∧
      refDiameter RefType.peso1 = 2.0 ∧
      ¬ (|(detectCoinReference 1000 1000 800 [coinCandGood]).ppcm -
            (((detectCoinReference 1000 1000 800 [coinCandGood]).diamPx : ℕ) : ℚ) /
              refDiameter RefType.peso1| ≤
        0.05 * ((((detectCoinReference 1000 1000 800 [coinCandGood]).diamPx : ℕ) : ℚ) /
          refDiameter RefType.peso1)) := by
  refine ⟨coinCandGood_detected, rfl, ?_⟩
  rw [coinCandGood_ppcm.1, coinCandGood_ppcm.2,
    show refDiameter RefType.peso1 = 2.0 from rfl]
  rw [show |(80 : ℚ) - ((200 : ℕ) : ℚ) / 2.0| = 20 from by
    rw [show ((200 : ℕ) : ℚ) = 200 from by norm_num]
    norm_num [abs_of_nonpos]]
  rw [show ((200 : ℕ) : ℚ) = 200 from by norm_num]
  norm_num

/-- The fast candidate survives the keep filter. -/
theorem fastCandGood_keep : fastKeep 500 400 none fastCandGood = true := by
  simp only [fastKeep, fastBoundsOk, insideFruit, edgeFrac, fastCandGood, Bool.and_eq_true,
    Bool.not_eq_true', Bool.or_eq_false_iff, decide_eq_false_iff_not, decide_eq_true_eq]
  norm_num

/-- The fast candidate's exact score (1.0). -/
theorem fastCandGood_score : fastScore 500 fastCandGood = 1 := by
  norm_num [fastScore, edgeFrac, fastCandGood, min_def, abs_of_nonpos]

/-- The fast search detects the fast candidate on a bright-bordered
image. -/
theorem fastCandGood_detected :
    (fastCoinSearch 500 400 1000 200 2.4 none none [fastCandGood]).detected = true := by
  unfold fastCoinSearch
  rw [if_neg (by norm_num : ¬ (200 : ℚ) < 165)]
  rw [show List.filter (fastKeep 500 400 none) (List.take 10 [fastCandGood]) =
      [fastCandGood] from by simp [List.filter, fastCandGood_keep]]
  dsimp only
  rw [show sortByKeyDesc (fastScore 500) [fastCandGood] = [fastCandGood] from rfl]
  rw [show fastValidate 500 1000 2.4 none [fastCandGood] =
      some ⟨true, fastRescale 1000 fastCandGood.cx, fastRescale 1000 fastCandGood.cy,
        fastRescale 1000 fastCandGood.r, fastRescale 1000 fastCandGood.r * 2, 2.4,
        ((fastRescale 1000 fastCandGood.r * 2 : ℕ) : ℚ) / 2.4,
        min 0.90 (fastScore 500 fastCandGood)⟩ from by
    simp only [fastValidate]
    rw [if_neg (by rw [fastCandGood_score]; norm_num)]
    simp]

/-- C6 witness: the calibration law applied at a concrete fast-search
detection (configured diameter 2.4 cm) and at the concrete thorough
detection. -/
theorem c6_calibration_scale_law_witness :
    (fastCoinSearch 500 400 1000 200 2.4 none none [fastCandGood]).ppcm =
        (((fastCoinSearch 500 400 1000 200 2.4 none none [fastCandGood]).diamPx : ℕ) : ℚ) /
          2.4 ∧
      (detectCoinReference 1000 1000 800 [coinCandGood]).ppcm =
        (((detectCoinReference 1000 1000 800 [coinCandGood]).diamPx : ℕ) : ℚ) / 2.5 := by
  constructor
  · exact c6_calibration_scale_law.1 500 400 1000 200 2.4 none none [fastCandGood]
      fastCandGood_detected
  · exact c6_calibration_scale_law.2.1 1000 1000 800 [coinCandGood] coinCandGood_detected

/-- A circle touching the border also violates the border margin. -/
theorem inBorderMargin_of_touches (w h : ℕ) (c : CoinCand)
    (ht : touchesBorder w h c = true) : inBorderMargin w h c = true := by
  unfold touchesBorder at ht
  unfold inBorderMargin
  simp only [Bool.or_eq_true, decide_eq_true_eq] at ht ⊢
  have hm : 5 ≤ max 5 (c.r / 10) := le_max_left _ _
  generalize hM : max 5 (c.r / 10) = m at hm ⊢
  rcases ht with ((hx | hx) | hx) | hx
  · left
    left
    left
    omega
  · left
    left
    right
    omega
  · left
    right
    omega
  · right
    omega

/-- A geometrically disqualified candidate fails the pre-scoring filter. -/
theorem passPre_false_of_bad (w h : ℕ) (c : CoinCand)
    (hbad : inBorderMargin w h c = true ∨ 0.55 < posFrac w c ∨
      sizeFrac w c ≤ 0.04 ∨ 0.25 ≤ sizeFrac w c) : passPre w h c = false := by
  unfold passPre
  rcases hbad with hx | hx | hx | hx
  · rw [hx]
    simp
  · rw [decide_eq_false (not_le.mpr hx)]
    simp
  · rw [show decide (0.04 < sizeFrac w c ∧ sizeFrac w c < 0.25) = false from
      decide_eq_false (by rintro ⟨h1, _⟩; linarith)]
    simp
  · rw [show decide (0.04 < sizeFrac w c ∧ sizeFrac w c < 0.25) = false from
      decide_eq_false (by rintro ⟨_, h2⟩; linarith)]
    simp

/-- C5 (amended): in the thorough coin search, every candidate circle
that comes within the border margin (in particular one touching the image
border), or whose centre lies beyond 55 % of the image width (the code's
left-position threshold, not the 50 % mid-line), or whose diameter-to-
width ratio falls outside (0.04, 0.25), is discarded before scoring; the
score-sorted head bounds every survivor's score and, when the
larger-circle preference fires for none of the next nine entries, is the
selected circle; and a coin is reported exactly when a circle was
selected with score at least 0.40. -/
theorem c5_coin_search_selection :
    (∀ (w h : ℕ) (c : CoinCand),
      (touchesBorder w h c = true ∨ inBorderMargin w h c = true ∨
        0.55 < posFrac w c ∨ sizeFrac w c ≤ 0.04 ∨ 0.25 ≤ sizeFrac w c) →
      ∀ cands : List CoinCand, c ∉ coinSurvivors w h cands) ∧
    (∀ (w h : ℕ) (cands : List CoinCand) (b : CoinCand) (rest : List CoinCand),
      sortByKeyDesc (scoreCand w) (coinSurvivors w h cands) = b :: rest →
      (∀ x ∈ coinSurvivors w h cands, scoreCand w x ≤ scoreCand w b) ∧
      ((∀ c ∈ rest.take 9, preferCond w b c = false) →
        selectCoin w h cands = some b)) ∧
    (∀ (origW w h : ℕ) (cands : List CoinCand),
      (detectCoinReference origW w h cands).detected = true ↔
        ∃ c, selectCoin w h cands = some c ∧ 0.40 ≤ scoreCand w c) := by
  refine ⟨?_, ?_, ?_⟩
  · intro w h c hbad cands hmem
    have hfalse : passPre w h c = false := by
      apply passPre_false_of_bad
      rcases hbad with hx | hx | hx | hx | hx
      · exact Or.inl (inBorderMargin_of_touches w h c hx)
      · exact Or.inl hx
      · exact Or.inr (Or.inl hx)
      · exact Or.inr (Or.inr (Or.inl hx))
      · exact Or.inr (Or.inr (Or.inr hx))
    have := (List.mem_filter.mp hmem).2
    rw [hfalse] at this
    exact Bool.false_ne_true this
  · intro w h cands b rest hsort
    refine ⟨sortByKeyDesc_head_max (scoreCand w) _ b rest hsort, ?_⟩
    intro hnone
    unfold selectCoin
    rw [hsort]
    dsimp only
    rw [preferLoop_of_none w b (rest.take 9) hnone]
  · intro origW w h cands
    exact detectCoinReference_detected_iff origW w h cands

/-- C5 counterexample: a candidate centred at 52 % of the image width —
inside the right half — is *not* discarded before scoring: it survives
the filter (the code's cut-off is 55 %, not the mid-line). -/
theorem c5_counterexample :
    ((1000 : ℚ) / 2 < ((coinCandRight.x : ℕ) : ℚ)) ∧
      coinCandRight ∈ coinSurvivors 1000 800 [coinCandRight] := by
  constructor
  · norm_num [coinCandRight]
  · have hpass : passPre 1000 800 coinCandRight = true := by
      simp only [passPre, inBorderMargin, posFrac, sizeFrac, coinCandRight, Bool.and_eq_true,
        Bool.not_eq_true', Bool.or_eq_false_iff, decide_eq_false_iff_not, decide_eq_true_eq]
      norm_num
    unfold coinSurvivors
    simp [List.filter, hpass]

/-- C5 witness: the filter discards a border-touching candidate, the
selection returns the single good candidate, and the detection test holds
at it. -/
theorem c5_coin_search_selection_witness :
    coinCandBorder ∉ coinSurvivors 1000 800 [coinCandBorder, coinCandGood] ∧
      selectCoin 1000 800 [coinCandGood] = some coinCandGood ∧
      (detectCoinReference 1000 1000 800 [coinCandGood]).detected = true := by
  refine ⟨?_, ?_, ?_⟩
  · exact c5_coin_search_selection.1 1000 800 coinCandBorder
      (Or.inl (by norm_num [touchesBorder, coinCandBorder]))
      [coinCandBorder, coinCandGood]
  · have hsort : sortByKeyDesc (scoreCand 1000) (coinSurvivors 1000 800 [coinCandGood]) =
        coinCandGood :: [] := by
      unfold coinSurvivors
      rw [show List.filter (passPre 1000 800) [coinCandGood] = [coinCandGood] from by
        simp [List.filter, coinCandGood_pass]]
      rfl
    exact (c5_coin_search_selection.2.1 1000 800 [coinCandGood] coinCandGood [] hsort).2
      (by intro c hc; simp at hc)
  · exact (c5_coin_search_selection.2.2 1000 1000 800 [coinCandGood]).mpr
      ⟨coinCandGood, coinCandGood_select, by rw [coinCandGood_score]; norm_num⟩

/-- C8: coin detection is total — the thorough search returns the typed
not-found result when no circle is selected and reports no detection below
the 0.40 score; the fast search returns the typed not-found result on
dark-bordered images; and in auto mode, when neither ArUco nor the coin
search detected a reference, the caller falls back to contour estimation,
whose successful result carries confidence exactly 0.40 and the note
recommending a reference object (a missing contour yields a typed
not-detected result, never an exception). -/
theorem c8_detection_totality :
    (∀ (origW w h : ℕ) (cands : List CoinCand),
      selectCoin w h cands = none → detectCoinReference origW w h cands = coinNotFound) ∧
    (∀ (origW w h : ℕ) (cands : List CoinCand),
      selectScore w h cands < 0.40 →
      (detectCoinReference origW w h cands).detected = false) ∧
    (∀ (w h maxDim : ℕ) (bb coinDiam : ℚ) (fr : Option (ℚ × ℚ × ℚ × ℚ))
        (fs : Option (ℚ × ℚ)) (circles : List FastCand),
      bb < 165 → fastCoinSearch w h maxDim bb coinDiam fr fs circles = fastNotDetected) ∧
    (∀ diag : ℚ, (estimateFromContour none diag).detected = false) ∧
    (∀ (aruco : ArucoResult) (coin : CoinRefResult) (fit : Option EllipseAxes) (diag : ℚ),
      aruco.detected = false → coin.detected = false →
      (estimateAuto aruco coin (estimateFromContour fit diag)).methodUsed =
        EstMethod.contourEst ∧
      ((estimateFromContour fit diag).detected = true →
        (estimateAuto aruco coin (estimateFromContour fit diag)).confidence = 0.40 ∧
        (estimateAuto aruco coin (estimateFromContour fit diag)).hasNote = true)) := by
  refine ⟨?_, ?_, ?_, ?_, ?_⟩
  · intro origW w h cands hsel
    unfold detectCoinReference
    rw [hsel]
  · intro origW w h cands hlt
    unfold selectScore at hlt
    unfold detectCoinReference
    cases hs : selectCoin w h cands with
    | none => rfl
    | some c =>
      rw [hs] at hlt
      dsimp only at hlt ⊢
      rw [if_neg (not_le.mpr hlt)]
      rfl
  · intro w h maxDim bb coinDiam fr fs circles hbb
    unfold fastCoinSearch
    rw [if_pos hbb]
  · intro diag
    rfl
  · intro aruco coin fit diag ha hc
    unfold estimateAuto
    rw [ha, hc]
    simp only [Bool.false_eq_true, if_false, detectCardReference]
    constructor
    · trivial
    · intro hdet
      cases fit with
      | none => simp [estimateFromContour] at hdet
      | some f => exact ⟨rfl, rfl⟩

/-- C8 witness: with no ArUco and no coin, auto mode falls back to
contour estimation with confidence exactly 0.40; a dark border skips the
fast coin search with the typed not-found result. -/
theorem c8_detection_totality_witness :
    (estimateAuto ⟨false, 0⟩ coinNotFound
        (estimateFromContour (some ⟨300, 500⟩) 1000)).methodUsed = EstMethod.contourEst ∧
      (estimateAuto ⟨false, 0⟩ coinNotFound
        (estimateFromContour (some ⟨300, 500⟩) 1000)).confidence = 0.40 ∧
      fastCoinSearch 500 400 1000 100 2.4 none none [] = fastNotDetected := by
  have h5 := c8_detection_totality.2.2.2.2 ⟨false, 0⟩ coinNotFound (some ⟨300, 500⟩) 1000
    rfl rfl
  exact ⟨h5.1, (h5.2 rfl).1,
    c8_detection_totality.2.2.1 500 400 1000 100 2.4 none none [] (by norm_num)⟩

/-- The person layer on `exInputA`: 30 % skin, rescued by 10 % strict
green. -/
theorem exInputA_person : personRes exInputA = ⟨false, 3 / 10, 3 / 10, 1 / 10⟩ := by
  have hlen : exInputA.pixels.length = 2000 := by
    simp only [exInputA, List.length_append, List.length_replicate]
  have hskin : exInputA.pixels.countP combinedSkin = 600 := by
    simp only [exInputA, List.countP_append, countP_replicate]
    decide
  have hstrong : exInputA.pixels.countP strongRescue = 200 := by
    simp only [exInputA, List.countP_append, countP_replicate]
    decide
  have htotal : exInputA.pixels.countP totalRescue = 600 := by
    simp only [exInputA, List.countP_append, countP_replicate]
    decide
  have hcs : cov combinedSkin exInputA.pixels = 3 / 10 := by
    unfold cov
    rw [hskin, hlen]
    norm_num
  have hst : cov strongRescue exInputA.pixels = 1 / 10 := by
    unfold cov
    rw [hstrong, hlen]
    norm_num
  have htt : cov totalRescue exInputA.pixels = 3 / 10 := by
    unfold cov
    rw [htotal, hlen]
    norm_num
  unfold personRes checkPerson
  rw [show exInputA.facesFound = 0 from rfl]
  rw [if_neg (by simp), if_pos (by rw [hcs]; norm_num [MAX_SKIN_COVERAGE]),
    if_pos (by rw [hst]; norm_num)]
  rw [hcs, hst, htt]

/-- The fruit-mask area of `exInputA` (its 200 green and 400 brown
pixels). -/
theorem exInputA_fruitArea : fruitArea exInputA = 600 := by
  unfold fruitArea
  simp only [exInputA, List.countP_append, countP_replicate]
  decide

/-- The masked pixels of `exInputA`. -/
theorem exInputA_masked :
    maskedPixels exInputA = List.replicate 200 greenPx ++ List.replicate 400 brownPx := by
  unfold maskedPixels
  simp only [exInputA, List.filter_append, filter_replicate]
  norm_num [show skinPx.inMask = false from rfl, show greenPx.inMask = true from rfl,
    show brownPx.inMask = true from rfl, show bgPx.inMask = false from rfl]

/-- The colour layer on `exInputA`: full strict-Talisay coverage, brown
dominant. -/
theorem exInputA_colour : colourRes exInputA = ⟨true, 1, 1, 2 / 3⟩ := by
  rw [colourRes, exInputA_masked]
  have hlen : (List.replicate 200 greenPx ++ List.replicate 400 brownPx).length = 600 := by
    simp only [List.length_append, List.length_replicate]
  have hany : (List.replicate 200 greenPx ++ List.replicate 400 brownPx).countP talisayAny
      = 600 := by
    simp only [List.countP_append, countP_replicate]
    decide
  have hg : (List.replicate 200 greenPx ++ List.replicate 400 brownPx).countP talisayGreen
      = 200 := by
    simp only [List.countP_append, countP_replicate]
    decide
  have hy : (List.replicate 200 greenPx ++ List.replicate 400 brownPx).countP talisayYellow
      = 0 := by
    simp only [List.countP_append, countP_replicate]
    decide
  have hb : (List.replicate 200 greenPx ++ List.replicate 400 brownPx).countP talisayBrown
      = 400 := by
    simp only [List.countP_append, countP_replicate]
    decide
  unfold checkColour dominantCov cov
  rw [hany, hg, hy, hb, hlen]
  rw [if_neg (by norm_num)]
  rw [if_neg (by
    rw [show max (max (((200 : ℕ) : ℚ) / ((600 : ℕ) : ℚ)) (((0 : ℕ) : ℚ) / ((600 : ℕ) : ℚ)))
        (((400 : ℕ) : ℚ) / ((600 : ℕ) : ℚ)) = 2 / 3 from by
      rw [max_def, max_def]
      norm_num]
    norm_num)]
  rw [show max (max (((200 : ℕ) : ℚ) / ((600 : ℕ) : ℚ)) (((0 : ℕ) : ℚ) / ((600 : ℕ) : ℚ)))
      (((400 : ℕ) : ℚ) / ((600 : ℕ) : ℚ)) = 2 / 3 from by
    rw [max_def, max_def]
    norm_num]
  rw [show min 1 ((((600 : ℕ) : ℚ) / ((600 : ℕ) : ℚ)) / 0.60) = 1 from by
    rw [min_def]
    norm_num]
  rw [show decide (MIN_TALISAY_COLOUR_COV ≤ ((600 : ℕ) : ℚ) / ((600 : ℕ) : ℚ)) = true from by
    rw [decide_eq_true_eq]
    norm_num [MIN_TALISAY_COLOUR_COV]]
  norm_num

/-- Numeric bounds for the circularity of the `exInputA` shape
measurement (`4π·600/160² ≈ 0.2945`). -/
theorem exInputA_circ_bounds :
    0.25 ≤ shapeCircularity exInputA.shapeM ∧ shapeCircularity exInputA.shapeM < 0.35 ∧
      shapeCircularity exInputA.shapeM ≤ 0.90 := by
  unfold shapeCircularity npPi
  rw [show exInputA.shapeM = ⟨true, 600, 160, 5, 700⟩ from rfl]
  norm_num

/-- The shape layer on `exInputA` fails with score 0.42 (aspect 5 is out
of range; circularity gets partial credit; solidity 6/7 full credit). -/
theorem exInputA_shape : (shapeRes exInputA).passes = false ∧
    (shapeRes exInputA).score = 0.42 := by
  have hcirc := exInputA_circ_bounds
  unfold shapeRes checkShape
  rw [if_neg (by
    rw [show exInputA.shapeM = ⟨true, 600, 160, 5, 700⟩ from rfl]
    norm_num)]
  have hsc : shapeScore exInputA.shapeM = 0.42 := by
    unfold shapeScore aspectScorePart circScorePart solidityScorePart shapeSolidity
    rw [if_neg (by
        rw [show exInputA.shapeM.aspect = 5 from rfl]
        norm_num),
      if_neg (by
        rw [show exInputA.shapeM.aspect = 5 from rfl]
        norm_num),
      if_neg (by
        rintro ⟨h1, _⟩
        linarith [hcirc.2.1]),
      if_pos ⟨hcirc.1, by linarith [hcirc.2.1]⟩,
      if_pos (by
        rw [show exInputA.shapeM = ⟨true, 600, 160, 5, 700⟩ from rfl]
        norm_num)]
    norm_num
  constructor
  · simp only
    rw [decide_eq_false_iff_not]
    rintro ⟨hs, -⟩
    rw [hsc] at hs
    norm_num at hs
  · exact hsc

/-- The texture layer on `exInputA` passes with score 1. -/
theorem exInputA_texture : textureRes exInputA = ⟨true, 1⟩ := by
  unfold textureRes checkTexture
  rw [if_neg (by
    rw [show exInputA.textureS = ⟨600, 30, 0, 5, 100⟩ from rfl]
    norm_num)]
  have hts : textureScore exInputA.textureS = 1 := by
    unfold textureScore textureStdScore textureMetallicScore textureHueScore textureLapScore
    rw [show exInputA.textureS = ⟨600, 30, 0, 5, 100⟩ from rfl]
    norm_num
  rw [hts]
  norm_num

/-- Two positive layers pass on `exInputA` (colour and texture). -/
theorem exInputA_pc : positiveCount exInputA = 2 := by
  unfold positiveCount
  rw [exInputA_colour, exInputA_shape.1, exInputA_texture]
  rfl

/-- The composite score of `exInputA`. -/
theorem exInputA_composite : composite exInputA = 0.826 := by
  unfold composite
  rw [exInputA_colour, exInputA_shape.2, exInputA_texture]
  norm_num

/-- The whole-image strict-green saturations of `exInputA`: 200 pixels at
saturation 200. -/
theorem exInputA_greenSats : greenSats exInputA = List.replicate 200 200 := by
  unfold greenSats
  simp only [exInputA, List.filter_append, filter_replicate]
  rw [show talisayGreen skinPx = false from rfl, show talisayGreen greenPx = true from rfl,
    show talisayGreen brownPx = false from rfl, show talisayGreen bgPx = false from rfl]
  simp only [Bool.false_eq_true, if_false, eq_self_iff_true, if_true, List.nil_append,
    List.append_nil, List.map_replicate]
  rfl

/-- The mask coverage of `exInputA` (no shape-gate fire). -/
theorem exInputA_maskCov : maskCoverage exInputA = 3 / 10 := by
  unfold maskCoverage
  rw [exInputA_fruitArea, show exInputA.imgH * exInputA.imgW = 2000 from rfl]
  norm_num

/-- The shape quality gate does not fire on `exInputA`. -/
theorem exInputA_gate : shapeGate exInputA = false := by
  unfold shapeGate
  apply decide_eq_false
  rintro ⟨hcov, -, -⟩
  rw [exInputA_maskCov] at hcov
  norm_num at hcov

/-- `exInputA` is accepted: two layers pass with composite 0.826, and the
vegetation veto cannot fire because the strict-green coverage is exactly
10 %, not strictly above it. -/
theorem exInputA_accepted : acceptedFinal exInputA = true := by
  unfold acceptedFinal
  rw [exInputA_person, exInputA_pc]
  rw [if_pos (by
    refine ⟨rfl, ?_, ?_⟩
    · norm_num [MAX_SKIN_COVERAGE]
    · norm_num [MIN_POSITIVE_LAYERS])]
  rw [if_neg (by norm_num)]
  rw [if_neg (by norm_num)]
  unfold acceptedAfterFloor
  rw [exInputA_composite]
  rw [if_neg (by norm_num)]
  unfold acceptedBase
  rw [exInputA_pc, exInputA_composite]
  rw [show decide (MIN_POSITIVE_LAYERS ≤ 2) = false from by simp [MIN_POSITIVE_LAYERS],
    decide_eq_true (by norm_num : (2 : ℕ) ≤ 2),
    decide_eq_true (by norm_num [MIN_GUARD_SCORE] : MIN_GUARD_SCORE ≤ (0.826 : ℚ))]
  rfl

/-- C4 counterexample: on `exInputA` the rescue fired (30 % skin, not
rejected), only two layers passed, the whole-image green band has more
than 100 pixels with median saturation 200 (above 140) — every condition
of the claim's vegetation veto — yet `verify` accepts the image, because
the code additionally requires the green coverage to be *strictly* above
10 % and here it is exactly 10 %. -/
theorem c4_counterexample :
    wasRescued exInputA ∧ positiveCount exInputA < 3 ∧
      (personRes exInputA).strongRescueCoverage = 1 / 10 ∧
      100 < (greenSats exInputA).length ∧ 140 < npMedian (greenSats exInputA) ∧
      (verify exInputA).accepted = true := by
  refine ⟨?_, ?_, ?_, ?_, ?_, ?_⟩
  · unfold wasRescued
    rw [exInputA_person]
    exact ⟨rfl, by norm_num [MAX_SKIN_COVERAGE]⟩
  · rw [exInputA_pc]
    norm_num
  · rw [exInputA_person]
  · rw [exInputA_greenSats, List.length_replicate]
    norm_num
  · rw [exInputA_greenSats, npMedian_replicate 200 200 (by norm_num)]
    norm_num
  · rw [verify_accepted_eq exInputA rfl (by rw [exInputA_person])
      (by rw [exInputA_fruitArea]; norm_num) rfl rfl exInputA_gate]
    exact exInputA_accepted

/-- C1 witness: the composite-stage description applied to the concrete
input `exInputA`. -/
theorem c1_composite_decision_witness :
    (verify exInputA).score = composite exInputA :=
  (c1_composite_decision exInputA rfl (by rw [exInputA_person])
    (by rw [exInputA_fruitArea]; norm_num) rfl rfl exInputA_gate).1

/-- The person layer on `exInputC`: 30 % skin, rescued by 11 % strict
green. -/
theorem exInputC_person : personRes exInputC = ⟨false, 3 / 10, 31 / 100, 11 / 100⟩ := by
  have hlen : exInputC.pixels.length = 2000 := by
    simp only [exInputC, List.length_append, List.length_replicate]
  have hskin : exInputC.pixels.countP combinedSkin = 600 := by
    simp only [exInputC, List.countP_append, countP_replicate]
    decide
  have hstrong : exInputC.pixels.countP strongRescue = 220 := by
    simp only [exInputC, List.countP_append, countP_replicate]
    decide
  have htotal : exInputC.pixels.countP totalRescue = 620 := by
    simp only [exInputC, List.countP_append, countP_replicate]
    decide
  have hcs : cov combinedSkin exInputC.pixels = 3 / 10 := by
    unfold cov
    rw [hskin, hlen]
    norm_num
  have hst : cov strongRescue exInputC.pixels = 11 / 100 := by
    unfold cov
    rw [hstrong, hlen]
    norm_num
  have htt : cov totalRescue exInputC.pixels = 31 / 100 := by
    unfold cov
    rw [htotal, hlen]
    norm_num
  unfold personRes checkPerson
  rw [show exInputC.facesFound = 0 from rfl]
  rw [if_neg (by simp), if_pos (by rw [hcs]; norm_num [MAX_SKIN_COVERAGE]),
    if_pos (by rw [hst]; norm_num)]
  rw [hcs, hst, htt]

/-- The fruit-mask area of `exInputC` (220 green and 400 brown pixels). -/
theorem exInputC_fruitArea : fruitArea exInputC = 620 := by
  unfold fruitArea
  simp only [exInputC, List.countP_append, countP_replicate]
  decide

/-- The masked pixels of `exInputC`. -/
theorem exInputC_masked :
    maskedPixels exInputC = List.replicate 220 greenPx ++ List.replicate 400 brownPx := by
  unfold maskedPixels
  simp only [exInputC, List.filter_append, filter_replicate]
  norm_num [show skinPx.inMask = false from rfl, show greenPx.inMask = true from rfl,
    show brownPx.inMask = true from rfl, show bgPx.inMask = false from rfl]

/-- The colour layer on `exInputC`: full strict-Talisay coverage, brown
dominant. -/
theorem exInputC_colour : colourRes exInputC = ⟨true, 1, 1, 20 / 31⟩ := by
  rw [colourRes, exInputC_masked]
  have hlen : (List.replicate 220 greenPx ++ List.replicate 400 brownPx).length = 620 := by
    simp only [List.length_append, List.length_replicate]
  have hany : (List.replicate 220 greenPx ++ List.replicate 400 brownPx).countP talisayAny
      = 620 := by
    simp only [List.countP_append, countP_replicate]
    decide
  have hg : (List.replicate 220 greenPx ++ List.replicate 400 brownPx).countP talisayGreen
      = 220 := by
    simp only [List.countP_append, countP_replicate]
    decide
  have hy : (List.replicate 220 greenPx ++ List.replicate 400 brownPx).countP talisayYellow
      = 0 := by
    simp only [List.countP_append, countP_replicate]
    decide
  have hb : (List.replicate 220 greenPx ++ List.replicate 400 brownPx).countP talisayBrown
      = 400 := by
    simp only [List.countP_append, countP_replicate]
    decide
  unfold checkColour dominantCov cov
  rw [hany, hg, hy, hb, hlen]
  rw [if_neg (by norm_num)]
  rw [if_neg (by
    rw [show max (max (((220 : ℕ) : ℚ) / ((620 : ℕ) : ℚ)) (((0 : ℕ) : ℚ) / ((620 : ℕ) : ℚ)))
        (((400 : ℕ) : ℚ) / ((620 : ℕ) : ℚ)) = 20 / 31 from by
      rw [max_def, max_def]
      norm_num]
    norm_num)]
  rw [show max (max (((220 : ℕ) : ℚ) / ((620 : ℕ) : ℚ)) (((0 : ℕ) : ℚ) / ((620 : ℕ) : ℚ)))
      (((400 : ℕ) : ℚ) / ((620 : ℕ) : ℚ)) = 20 / 31 from by
    rw [max_def, max_def]
    norm_num]
  rw [show min 1 ((((620 : ℕ) : ℚ) / ((620 : ℕ) : ℚ)) / 0.60) = 1 from by
    rw [min_def]
    norm_num]
  rw [show decide (MIN_TALISAY_COLOUR_COV ≤ ((620 : ℕ) : ℚ) / ((620 : ℕ) : ℚ)) = true from by
    rw [decide_eq_true_eq]
    norm_num [MIN_TALISAY_COLOUR_COV]]
  norm_num

/-- Two positive layers pass on `exInputC` (colour and texture; the shape
measurement equals that of `exInputA`). -/
theorem exInputC_pc : positiveCount exInputC = 2 := by
  have hsh : shapeRes exInputC = shapeRes exInputA := congrArg checkShape rfl
  have htx : textureRes exInputC = textureRes exInputA := congrArg checkTexture rfl
  unfold positiveCount
  rw [exInputC_colour, hsh, exInputA_shape.1, htx, exInputA_texture]
  rfl

/-- The mask coverage of `exInputC` (no shape-gate fire). -/
theorem exInputC_maskCov : maskCoverage exInputC = 31 / 100 := by
  unfold maskCoverage
  rw [exInputC_fruitArea, show exInputC.imgH * exInputC.imgW = 2000 from rfl]
  norm_num

/-- The shape quality gate does not fire on `exInputC`. -/
theorem exInputC_gate : shapeGate exInputC = false := by
  unfold shapeGate
  apply decide_eq_false
  rintro ⟨hcov, -, -⟩
  rw [exInputC_maskCov] at hcov
  norm_num at hcov

/-- The whole-image strict-green saturations of `exInputC`: 220 pixels at
saturation 200. -/
theorem exInputC_greenSats : greenSats exInputC = List.replicate 220 200 := by
  unfold greenSats
  simp only [exInputC, List.filter_append, filter_replicate]
  rw [show talisayGreen skinPx = false from rfl, show talisayGreen greenPx = true from rfl,
    show talisayGreen brownPx = false from rfl, show talisayGreen bgPx = false from rfl]
  simp only [Bool.false_eq_true, if_false, eq_self_iff_true, if_true, List.nil_append,
    List.append_nil, List.map_replicate]
  rfl

/-- The vegetation arm of the veto fires on `exInputC`: strict-green
coverage 11 % is strictly above 10 %, 220 green pixels exceed 100, and
their median saturation 200 exceeds 140. -/
theorem exInputC_veg : vegetationVeto exInputC := by
  refine ⟨?_, ?_, ?_⟩
  · rw [exInputC_person]
    norm_num
  · rw [exInputC_greenSats, List.length_replicate]
    norm_num
  · rw [exInputC_greenSats, npMedian_replicate 200 220 (by norm_num)]
    norm_num

/-- C4 (amended): when the composite stage is reached and the person layer
rescued a skin-heavy image (coverage above 25 %) with fewer than three
positive layers, the verdict is a rejection whenever skin coverage is
strictly above 45 %, and likewise whenever the vegetation condition holds —
strict-green coverage strictly above 10 % (not at least 10 %), with more
than 100 whole-image green pixels of median saturation above 140. -/
theorem c4_skin_sensitivity_veto (inp : VerifyInput)
    (hb : inp.isBlank = false) (hp : (personRes inp).isPerson = false)
    (ha : 500 ≤ fruitArea inp) (hc : inp.isCapsicum = false)
    (hn : inp.isNonTalisay = false) (hg : shapeGate inp = false)
    (hr : MAX_SKIN_COVERAGE < (personRes inp).skinCoverage)
    (hpc : positiveCount inp < MIN_POSITIVE_LAYERS) :
    (0.45 < (personRes inp).skinCoverage → (verify inp).accepted = false) ∧
      (vegetationVeto inp → (verify inp).accepted = false) := by
  rw [verify_accepted_eq inp hb hp ha hc hn hg]
  unfold acceptedFinal
  rw [if_pos ⟨hp, hr, hpc⟩]
  constructor
  · intro h45
    rw [if_pos h45]
  · rintro ⟨hstrong, hcount, hmed⟩
    by_cases h45 : 0.45 < (personRes inp).skinCoverage
    · rw [if_pos h45]
    · rw [if_neg h45, if_pos hstrong, if_pos hcount, if_pos hmed]

/-- C4 witness: on `exInputC` (11 % vegetation-like green over 30 % skin,
two positive layers) the veto fires and the image is rejected. -/
theorem c4_skin_sensitivity_veto_witness : (verify exInputC).accepted = false :=
  (c4_skin_sensitivity_veto exInputC rfl (by rw [exInputC_person])
    (by rw [exInputC_fruitArea]; norm_num) rfl rfl exInputC_gate
    (by rw [exInputC_person]; norm_num [MAX_SKIN_COVERAGE])
    (by rw [exInputC_pc]; norm_num [MIN_POSITIVE_LAYERS])).2 exInputC_veg

/-- The person layer on `exInputB`: no faces, no skin. -/
theorem exInputB_person : (personRes exInputB).isPerson = false := by
  have hcs : cov combinedSkin exInputB.pixels = 0 := by
    unfold cov
    rw [show exInputB.pixels.countP combinedSkin = 0 from by
      simp only [exInputB, List.countP_append, countP_replicate]
      decide]
    norm_num
  unfold personRes checkPerson
  rw [if_neg (by
      rintro ⟨hf, -⟩
      rw [show exInputB.facesFound = 0 from rfl] at hf
      exact absurd hf (by norm_num)),
    if_neg (by rw [hcs]; norm_num [MAX_SKIN_COVERAGE])]

/-- The fruit-mask area of `exInputB` (its 500-pixel mask). -/
theorem exInputB_fruitArea : fruitArea exInputB = 500 := by
  unfold fruitArea
  simp only [exInputB, List.countP_append, countP_replicate]
  decide

/-- The mask coverage of `exInputB`: 10 %, under the gate's 12 %. -/
theorem exInputB_maskCov : maskCoverage exInputB = 1 / 10 := by
  unfold maskCoverage
  rw [exInputB_fruitArea, show exInputB.imgH * exInputB.imgW = 5000 from rfl]
  norm_num

/-- The shape geometry of `exInputB`: circularity `0.32·π ≈ 1.005` above
0.90 and aspect 1 below 1.08. -/
theorem exInputB_shape_fields :
    0.90 < (shapeRes exInputB).circularity ∧ (shapeRes exInputB).aspect < 1.08 := by
  unfold shapeRes checkShape
  rw [if_neg (by
    rw [show exInputB.shapeM = ⟨true, 800, 100, 1, 800⟩ from rfl]
    norm_num)]
  constructor
  · show 0.90 < shapeCircularity exInputB.shapeM
    unfold shapeCircularity npPi
    rw [show exInputB.shapeM = ⟨true, 800, 100, 1, 800⟩ from rfl]
    norm_num
  · show exInputB.shapeM.aspect < 1.08
    rw [show exInputB.shapeM = ⟨true, 800, 100, 1, 800⟩ from rfl]
    norm_num

/-- C2 witness: the shape quality gate applied to the concrete small round
input `exInputB`. -/
theorem c2_small_round_gate_witness :
    (verify exInputB).verdict = GuardVerdict.rejectWrongShape ∧
      (verify exInputB).accepted = false :=
  c2_small_round_gate exInputB rfl exInputB_person
    (by rw [exInputB_fruitArea]) rfl rfl
    (by rw [exInputB_maskCov]; norm_num)
    exInputB_shape_fields.1 exInputB_shape_fields.2

/-- C3 witness: the person layer applied at two concrete inputs — a face
with no rescue colour is flagged as a person, and 30 % skin with 11 %
strict green is not. -/
theorem c3_person_layer_witness :
    (checkPerson 1 (List.replicate 10 bgPx)).isPerson = true ∧
      (checkPerson 0 c4bPix).isPerson = false := by
  have hstrongB : cov strongRescue (List.replicate 10 bgPx) = 0 := by
    unfold cov
    rw [show (List.replicate 10 bgPx).countP strongRescue = 0 from by
      rw [countP_replicate]
      decide]
    norm_num
  have hlenC : c4bPix.length = 100 := by
    simp only [c4bPix, List.length_append, List.length_replicate]
  have hskinC : cov combinedSkin c4bPix = 3 / 10 := by
    unfold cov
    rw [show c4bPix.countP combinedSkin = 30 from by
      simp only [c4bPix, List.countP_append, countP_replicate]
      decide, hlenC]
    norm_num
  have hstrongC : cov strongRescue c4bPix = 11 / 100 := by
    unfold cov
    rw [show c4bPix.countP strongRescue = 11 from by
      simp only [c4bPix, List.countP_append, countP_replicate]
      decide, hlenC]
    norm_num
  refine ⟨(c3_person_layer 1 (List.replicate 10 bgPx)).1 (by norm_num)
      (by rw [hstrongB]; norm_num),
    ((c3_person_layer 0 c4bPix).2
      (by rintro ⟨hf, -⟩; exact absurd hf (by norm_num))
      (by rw [hskinC]; norm_num [MAX_SKIN_COVERAGE])).mpr
      (Or.inl (by rw [hstrongC]; norm_num))⟩

/-- `List.Forall₂` holds between equal-length replicated lists whose base
elements are related. -/
theorem forall2_replicate (R : GuardPixel → GuardPixel → Prop) (a b : GuardPixel)
    (h : R a b) (n : ℕ) : List.Forall₂ R (List.replicate n a) (List.replicate n b) := by
  induction n with
  | zero => exact List.Forall₂.nil
  | succ k ih =>
    rw [List.replicate_succ, List.replicate_succ]
    exact List.Forall₂.cons h ih

/-- C10 witness: colour-score monotonicity under a concrete pixel-for-pixel
green gain (background recoloured to fruit-like green), and the closed-form
pass condition at the recoloured 200-pixel list. -/
theorem c10_colour_layer_witness :
    (checkColour (List.replicate 200 bgPx)).score ≤
        (checkColour (List.replicate 200 greenLowPx)).score ∧
      ((checkColour (List.replicate 200 greenLowPx)).passes = true ↔
        (MIN_TALISAY_COLOUR_COV ≤ cov talisayAny (List.replicate 200 greenLowPx) ∧
          0.15 ≤ dominantCov (List.replicate 200 greenLowPx))) :=
  ⟨c10_colour_layer.1 _ _ (forall2_replicate colourCoupling bgPx greenLowPx
      ⟨by decide, by decide, by decide⟩ 200),
    (c10_colour_layer.2 (List.replicate 200 greenLowPx)
      (by rw [List.length_replicate])).2⟩

/-- C10 counterexample: a 100-pixel mask entirely inside the Talisay-green
band has total coverage 1 and dominant coverage 1, so the claimed formula
gives score `min(1, 1/0.60) = 1` and a pass — but the code short-circuits
any mask under 200 pixels to score 0 and failure. -/
theorem c10_counterexample :
    ¬ ((checkColour (List.replicate 100 greenLowPx)).score =
        min 1 (cov talisayAny (List.replicate 100 greenLowPx) / 0.60) ∧
      ((checkColour (List.replicate 100 greenLowPx)).passes = true ↔
        (MIN_TALISAY_COLOUR_COV ≤ cov talisayAny (List.replicate 100 greenLowPx) ∧
          0.15 ≤ dominantCov (List.replicate 100 greenLowPx)))) := by
  have hc : checkColour (List.replicate 100 greenLowPx) = ⟨false, 0, 0, 0⟩ := by
    unfold checkColour
    rw [if_pos (by rw [List.length_replicate]; norm_num)]
  have hcov : cov talisayAny (List.replicate 100 greenLowPx) = 1 := by
    unfold cov
    rw [show (List.replicate 100 greenLowPx).countP talisayAny = 100 from by
      rw [countP_replicate]
      decide, List.length_replicate]
    norm_num
  rintro ⟨hscore, -⟩
  rw [hc, hcov] at hscore
  have h0 : (0 : ℚ) = min 1 (1 / 0.60) := hscore
  rw [show min (1 : ℚ) (1 / 0.60) = 1 from by
    rw [min_def]
    norm_num] at h0
  norm_num at h0
